import Mathlib

/-!
Verification development for the NetFlow v9 export engine of
src/src/nfreplay/send_v9.c (template cache, template builder, record
serializer, buffer/flowset manager, export session).

Modelling conventions:
* machine integers are Nat; wherever the C code truncates (htons/htonl,
  uint16/uint32 stores) the model keeps the low bits explicitly;
* buffers are lists of byte values; the write cursor is the list length;
  the 20-byte v9 packet header is kept as separate fields (the C code
  addresses it through `sender_data->header.v9_header`), so offsets in
  the modelled buffer are offsets past the packet header;
* multi-byte header/field stores go through big-endian byte lists,
  mirroring htons/htonl/htonll plus the Put_valNN copy macros
  (inline.c is not part of the sources; per the spec every value is
  written in network byte order at its declared width).
-/

namespace SendV9

/-- Extension identifiers handled by send_v9.c (the cases of the two big
switch statements; `nfxV3.h` is outside the given sources, but only the
identity of the tags matters, never their numeric value). -/
inductive ExId where
  | EXgenericFlowID
  | EXipv4FlowID
  | EXipv6FlowID
  | EXflowMiscID
  | EXcntFlowID
  | EXvLanID
  | EXasRoutingID
  | EXbgpNextHopV4ID
  | EXbgpNextHopV6ID
  | EXipNextHopV4ID
  | EXipNextHopV6ID
  | EXmplsLabelID
  | EXmacAddrID
  | EXasAdjacentID
  deriving DecidableEq, Repr

/-- The fields of master_record_t that Append_Record / GetOutputTemplate
read.  `exElementList` keeps its order; `numElements` is its length.
mpls_label is the 10-entry label array accessed as mpls_label[i]. -/
structure MasterRecord where
  size : Nat := 0
  exElementList : List ExId := []
  engine_type : Nat := 0
  engine_id : Nat := 0
  msecFirst : Nat := 0
  msecLast : Nat := 0
  inPackets : Nat := 0
  inBytes : Nat := 0
  srcPort : Nat := 0
  dstPort : Nat := 0
  proto : Nat := 0
  tcp_flags : Nat := 0
  fwd_status : Nat := 0
  tos : Nat := 0
  v4srcaddr : Nat := 0
  v4dstaddr : Nat := 0
  v6srcaddr0 : Nat := 0
  v6srcaddr1 : Nat := 0
  v6dstaddr0 : Nat := 0
  v6dstaddr1 : Nat := 0
  input : Nat := 0
  output : Nat := 0
  src_mask : Nat := 0
  dst_mask : Nat := 0
  dir : Nat := 0
  dst_tos : Nat := 0
  aggr_flows : Nat := 0
  out_pkts : Nat := 0
  out_bytes : Nat := 0
  src_vlan : Nat := 0
  dst_vlan : Nat := 0
  srcas : Nat := 0
  dstas : Nat := 0
  bgp_nexthop_v4 : Nat := 0
  bgp_nexthop_v6_0 : Nat := 0
  bgp_nexthop_v6_1 : Nat := 0
  ip_nexthop_v4 : Nat := 0
  ip_nexthop_v6_0 : Nat := 0
  ip_nexthop_v6_1 : Nat := 0
  mpls_label : Nat → Nat := fun _ => 0
  in_src_mac : Nat := 0
  out_dst_mac : Nat := 0
  in_dst_mac : Nat := 0
  out_src_mac : Nat := 0
  bgpNextAdjacentAS : Nat := 0
  bgpPrevAdjacentAS : Nat := 0

/-- Big-endian byte list of the low `n` bytes of `v`: the combined effect
of htons/htonl/htonll and the fixed-width Put_valNN stores. -/
def beBytes : Nat → Nat → List Nat
  | 0, _ => []
  | n + 1, v => (v / 256 ^ n) % 256 :: beBytes n v

/- Protocol numbers from <netinet/in.h> (system header, fixed values). -/
def IPPROTO_ICMP : Nat := 1
def IPPROTO_ICMPV6 : Nat := 58

/- NetFlow v9 field type codes (from the wire-format table; the headers
defining them are not under the given sources, and no theorem below
depends on the numeric values, only on field widths and order). -/
def NF9_ENGINE_TYPE : Nat := 38
def NF9_ENGINE_ID : Nat := 39
def NF_F_FLOW_CREATE_TIME_MSEC : Nat := 152
def NF_F_FLOW_END_TIME_MSEC : Nat := 153
def NF9_IN_PACKETS : Nat := 2
def NF9_IN_BYTES : Nat := 1
def NF9_L4_SRC_PORT : Nat := 7
def NF9_L4_DST_PORT : Nat := 11
def NF9_ICMP : Nat := 32
def NF9_IN_PROTOCOL : Nat := 4
def NF9_TCP_FLAGS : Nat := 6
def NF9_FORWARDING_STATUS : Nat := 89
def NF9_SRC_TOS : Nat := 5
def NF9_IPV4_SRC_ADDR : Nat := 8
def NF9_IPV4_DST_ADDR : Nat := 12
def NF9_SRC_MASK : Nat := 9
def NF9_DST_MASK : Nat := 13
def NF9_IPV6_SRC_ADDR : Nat := 27
def NF9_IPV6_DST_ADDR : Nat := 28
def NF9_IPV6_SRC_MASK : Nat := 29
def NF9_IPV6_DST_MASK : Nat := 30
def NF9_INPUT_SNMP : Nat := 10
def NF9_OUTPUT_SNMP : Nat := 14
def NF9_DIRECTION : Nat := 61
def NF9_DST_TOS : Nat := 55
def NF9_FLOWS_AGGR : Nat := 3
def NF9_OUT_PKTS : Nat := 24
def NF9_OUT_BYTES : Nat := 23
def NF9_SRC_VLAN : Nat := 58
def NF9_DST_VLAN : Nat := 59
def NF9_SRC_AS : Nat := 16
def NF9_DST_AS : Nat := 17
def NF9_BGP_V4_NEXT_HOP : Nat := 18
def NF9_BPG_V6_NEXT_HOP : Nat := 63
def NF9_V4_NEXT_HOP : Nat := 15
def NF9_V6_NEXT_HOP : Nat := 62
def NF9_MPLS_LABEL_1 : Nat := 70
def NF9_MPLS_LABEL_2 : Nat := 71
def NF9_MPLS_LABEL_3 : Nat := 72
def NF9_MPLS_LABEL_4 : Nat := 73
def NF9_MPLS_LABEL_5 : Nat := 74
def NF9_MPLS_LABEL_6 : Nat := 75
def NF9_MPLS_LABEL_7 : Nat := 76
def NF9_MPLS_LABEL_8 : Nat := 77
def NF9_MPLS_LABEL_9 : Nat := 78
def NF9_MPLS_LABEL_10 : Nat := 79
def NF9_IN_SRC_MAC : Nat := 56
def NF9_OUT_DST_MAC : Nat := 57
def NF9_IN_DST_MAC : Nat := 80
def NF9_OUT_SRC_MAC : Nat := 81
def NF_F_BGP_ADJ_NEXT_AS : Nat := 128
def NF_F_BGP_ADJ_PREV_AS : Nat := 129

/-- Bytes Append_Record emits for one extension of the record (the body
of its per-extension switch, send_v9.c lines 474-608). -/
def extBytes (r : MasterRecord) : ExId → List Nat
  | .EXgenericFlowID =>
      beBytes 8 r.msecFirst ++ beBytes 8 r.msecLast ++
      beBytes 8 r.inPackets ++ beBytes 8 r.inBytes ++
      beBytes 2 r.srcPort ++
      (if r.proto = IPPROTO_ICMP ∨ r.proto = IPPROTO_ICMPV6 then
        beBytes 2 0 ++ beBytes 2 r.dstPort
      else
        beBytes 2 r.dstPort ++ beBytes 2 0) ++
      beBytes 1 r.proto ++ beBytes 1 r.tcp_flags ++
      beBytes 1 r.fwd_status ++ beBytes 1 r.tos
  | .EXipv4FlowID =>
      beBytes 4 r.v4srcaddr ++ beBytes 4 r.v4dstaddr
  | .EXipv6FlowID =>
      beBytes 8 r.v6srcaddr0 ++ beBytes 8 r.v6srcaddr1 ++
      beBytes 8 r.v6dstaddr0 ++ beBytes 8 r.v6dstaddr1
  | .EXflowMiscID =>
      beBytes 4 r.input ++ beBytes 4 r.output ++
      beBytes 1 r.src_mask ++ beBytes 1 r.dst_mask ++
      beBytes 1 r.dir ++ beBytes 1 r.dst_tos
  | .EXcntFlowID =>
      beBytes 8 r.aggr_flows ++ beBytes 8 r.out_pkts ++ beBytes 8 r.out_bytes
  | .EXvLanID =>
      beBytes 2 r.src_vlan ++ beBytes 2 r.dst_vlan
  | .EXasRoutingID =>
      beBytes 4 r.srcas ++ beBytes 4 r.dstas
  | .EXbgpNextHopV4ID =>
      beBytes 4 r.bgp_nexthop_v4
  | .EXbgpNextHopV6ID =>
      beBytes 8 r.bgp_nexthop_v6_0 ++ beBytes 8 r.bgp_nexthop_v6_1
  | .EXipNextHopV4ID =>
      beBytes 4 r.ip_nexthop_v4
  | .EXipNextHopV6ID =>
      beBytes 8 r.ip_nexthop_v6_0 ++ beBytes 8 r.ip_nexthop_v6_1
  | .EXmplsLabelID =>
      (List.range 10).flatMap fun i => beBytes 3 (r.mpls_label i)
  | .EXmacAddrID =>
      beBytes 6 r.in_src_mac ++ beBytes 6 r.out_dst_mac ++
      beBytes 6 r.in_dst_mac ++ beBytes 6 r.out_src_mac
  | .EXasAdjacentID =>
      beBytes 4 r.bgpNextAdjacentAS ++ beBytes 4 r.bgpPrevAdjacentAS

/-- Every byte Append_Record writes for one record: engine type and id
(one byte each), then the extensions in the record's own order. -/
def recordBytes (r : MasterRecord) : List Nat :=
  beBytes 1 r.engine_type ++ beBytes 1 r.engine_id ++
  r.exElementList.flatMap (extBytes r)

/-- One (type, length) entry of a template flowset. -/
structure FieldSpec where
  ftype : Nat
  flen : Nat
  deriving DecidableEq, Repr

/-- Accumulator of the template-building loop in GetOutputTemplate:
the field entries written so far, the accumulated record_length, and the
two contextual mask type codes (srcMaskType/dstMaskType local vars). -/
structure BuildAcc where
  fields : List FieldSpec
  record_length : Nat
  srcMaskType : Nat
  dstMaskType : Nat
  deriving DecidableEq, Repr

/-- One iteration of the template-building switch
(send_v9.c lines 247-438). -/
def buildStep (acc : BuildAcc) (e : ExId) : BuildAcc :=
  match e with
  | .EXgenericFlowID =>
      { acc with
        fields := acc.fields ++
          [⟨NF_F_FLOW_CREATE_TIME_MSEC, 8⟩, ⟨NF_F_FLOW_END_TIME_MSEC, 8⟩,
           ⟨NF9_IN_PACKETS, 8⟩, ⟨NF9_IN_BYTES, 8⟩,
           ⟨NF9_L4_SRC_PORT, 2⟩, ⟨NF9_L4_DST_PORT, 2⟩, ⟨NF9_ICMP, 2⟩,
           ⟨NF9_IN_PROTOCOL, 1⟩, ⟨NF9_TCP_FLAGS, 1⟩,
           ⟨NF9_FORWARDING_STATUS, 1⟩, ⟨NF9_SRC_TOS, 1⟩],
        record_length := acc.record_length + 42 }
  | .EXipv4FlowID =>
      { acc with
        fields := acc.fields ++ [⟨NF9_IPV4_SRC_ADDR, 4⟩, ⟨NF9_IPV4_DST_ADDR, 4⟩],
        record_length := acc.record_length + 8,
        srcMaskType := NF9_SRC_MASK, dstMaskType := NF9_DST_MASK }
  | .EXipv6FlowID =>
      { acc with
        fields := acc.fields ++ [⟨NF9_IPV6_SRC_ADDR, 16⟩, ⟨NF9_IPV6_DST_ADDR, 16⟩],
        record_length := acc.record_length + 32,
        srcMaskType := NF9_IPV6_SRC_MASK, dstMaskType := NF9_IPV6_DST_MASK }
  | .EXflowMiscID =>
      { acc with
        fields := acc.fields ++
          [⟨NF9_INPUT_SNMP, 4⟩, ⟨NF9_OUTPUT_SNMP, 4⟩,
           ⟨acc.srcMaskType, 1⟩, ⟨acc.dstMaskType, 1⟩,
           ⟨NF9_DIRECTION, 1⟩, ⟨NF9_DST_TOS, 1⟩],
        record_length := acc.record_length + 12 }
  | .EXcntFlowID =>
      { acc with
        fields := acc.fields ++
          [⟨NF9_FLOWS_AGGR, 8⟩, ⟨NF9_OUT_PKTS, 8⟩, ⟨NF9_OUT_BYTES, 8⟩],
        record_length := acc.record_length + 24 }
  | .EXvLanID =>
      { acc with
        fields := acc.fields ++ [⟨NF9_SRC_VLAN, 2⟩, ⟨NF9_DST_VLAN, 2⟩],
        record_length := acc.record_length + 4 }
  | .EXasRoutingID =>
      { acc with
        fields := acc.fields ++ [⟨NF9_SRC_AS, 4⟩, ⟨NF9_DST_AS, 4⟩],
        record_length := acc.record_length + 8 }
  | .EXbgpNextHopV4ID =>
      { acc with
        fields := acc.fields ++ [⟨NF9_BGP_V4_NEXT_HOP, 4⟩],
        record_length := acc.record_length + 4 }
  | .EXbgpNextHopV6ID =>
      { acc with
        fields := acc.fields ++ [⟨NF9_BPG_V6_NEXT_HOP, 16⟩],
        record_length := acc.record_length + 16 }
  | .EXipNextHopV4ID =>
      { acc with
        fields := acc.fields ++ [⟨NF9_V4_NEXT_HOP, 4⟩],
        record_length := acc.record_length + 4 }
  | .EXipNextHopV6ID =>
      { acc with
        fields := acc.fields ++ [⟨NF9_V6_NEXT_HOP, 16⟩],
        record_length := acc.record_length + 16 }
  | .EXmplsLabelID =>
      { acc with
        fields := acc.fields ++
          [⟨NF9_MPLS_LABEL_1, 3⟩, ⟨NF9_MPLS_LABEL_2, 3⟩, ⟨NF9_MPLS_LABEL_3, 3⟩,
           ⟨NF9_MPLS_LABEL_4, 3⟩, ⟨NF9_MPLS_LABEL_5, 3⟩, ⟨NF9_MPLS_LABEL_6, 3⟩,
           ⟨NF9_MPLS_LABEL_7, 3⟩, ⟨NF9_MPLS_LABEL_8, 3⟩, ⟨NF9_MPLS_LABEL_9, 3⟩,
           ⟨NF9_MPLS_LABEL_10, 3⟩],
        record_length := acc.record_length + 30 }
  | .EXmacAddrID =>
      { acc with
        fields := acc.fields ++
          [⟨NF9_IN_SRC_MAC, 6⟩, ⟨NF9_OUT_DST_MAC, 6⟩,
           ⟨NF9_IN_DST_MAC, 6⟩, ⟨NF9_OUT_SRC_MAC, 6⟩],
        record_length := acc.record_length + 24 }
  | .EXasAdjacentID =>
      { acc with
        fields := acc.fields ++ [⟨NF_F_BGP_ADJ_NEXT_AS, 4⟩, ⟨NF_F_BGP_ADJ_PREV_AS, 4⟩],
        record_length := acc.record_length + 8 }

/-- The whole template-building loop: the two always-present engine
fields (record_length starts at 2), then each extension in order. -/
def buildFields (l : List ExId) : BuildAcc :=
  l.foldl buildStep
    { fields := [⟨NF9_ENGINE_TYPE, 1⟩, ⟨NF9_ENGINE_ID, 1⟩],
      record_length := 2, srcMaskType := 0, dstMaskType := 0 }

/-- A cached output template (outTemplate_t); the pre-built flowset
bytes are recoverable from `fields`, `template_id` and `flowset_length`
(see templateBytes). -/
structure OutTemplate where
  size : Nat
  exElementList : List ExId
  time_sent : Nat
  record_count : Nat
  record_length : Nat
  flowset_length : Nat
  template_id : Nat
  needs_refresh : Bool
  fields : List FieldSpec
  deriving DecidableEq, Repr

def dfltTemplate : OutTemplate :=
  { size := 0, exElementList := [], time_sent := 0, record_count := 0,
    record_length := 0, flowset_length := 0, template_id := 0,
    needs_refresh := false, fields := [] }

/-- Template construction on a cache miss (send_v9.c lines 204-464):
store size and extension list, assign the id (256 for the very first
template, previous id + 1 otherwise; the field is uint16), build the
field table, compute flowset_length = 4*(2+count) rounded up to a
4-byte boundary (the round-up branch is kept although 4*(2+count) is
already aligned). -/
def newTemplate (r : MasterRecord) (tid : Nat) : OutTemplate :=
  let acc := buildFields r.exElementList
  let count := acc.fields.length
  let fl0 := 4 * (2 + count)
  let fl := if fl0 % 4 ≠ 0 then fl0 + (4 - fl0 % 4) else fl0
  { size := r.size, exElementList := r.exElementList,
    time_sent := 0, record_count := 0,
    record_length := acc.record_length, flowset_length := fl,
    template_id := if tid = 0 then 256 else (tid + 1) % 65536,
    needs_refresh := false, fields := acc.fields }

/-- Wire bytes of a template flowset as memcpy'd by Add_template_flowset:
flowset_id 0, total length, template id, field count, then the
(type, length) pairs; flowset_length covers exactly the 8-byte header
plus the field entries, so the spare padding entry is never copied. -/
def templateBytes (t : OutTemplate) : List Nat :=
  beBytes 2 0 ++ beBytes 2 t.flowset_length ++
  beBytes 2 t.template_id ++ beBytes 2 t.fields.length ++
  t.fields.flatMap fun f => beBytes 2 f.ftype ++ beBytes 2 f.flen

/-- Combined mutable state of the sender: the template cache (the
outTemplates global list, head first), the send buffer past the 20-byte
v9 packet header (`buffer`, cursor = length, `capacity` =
endp - send_buffer - sizeof(v9Header_t)), the header fields the engine
writes (as the big-endian bytes the buffer holds), and sender_data. -/
structure SenderState where
  templates : List OutTemplate
  buffer : List Nat
  capacity : Nat
  flush : Bool
  hdrUnixSecs : List Nat
  hdrCount : List Nat
  hdrSequence : List Nat
  seqCounter : Nat
  recordCount : Nat
  templateCount : Nat
  dataFlowsetStart : Option Nat
  dataFlowsetId : Nat
  deriving DecidableEq, Repr

/-- Init_v9_output: fresh header and sender_data; the template list is
the process-global outTemplates, empty at process start. -/
def initState (capacity : Nat) : SenderState :=
  { templates := [], buffer := [], capacity := capacity, flush := false,
    hdrUnixSecs := [0, 0, 0, 0], hdrCount := [0, 0],
    hdrSequence := [0, 0, 0, 0], seqCounter := 0,
    recordCount := 0, templateCount := 0,
    dataFlowsetStart := none, dataFlowsetId := 0 }

/-- The caller's reaction to `flush = true`: transmit the packet and
reset the write cursor to the start of the send buffer (AddRecord then
moves it past the packet header again, which this model absorbs by
emptying the data region). -/
def flushReset (s : SenderState) : SenderState :=
  { s with buffer := [], flush := false }

/-- Replace the template at position `i` (the C code mutates the cached
template through the pointer GetOutputTemplate returned). -/
def modifyIdx (ts : List OutTemplate) (i : Nat) (f : OutTemplate → OutTemplate) :
    List OutTemplate :=
  ts.set i (f (ts.getD i dfltTemplate))

/-- The template-cache search loop of GetOutputTemplate (lines 190-200):
walk the list; a node whose size and extension count match is returned
at once (the exElementList memcmp only gates a debug print); while
walking remember the id of the node just passed.  Result: index of the
hit if any, and the last id seen (0 when the list is empty). -/
def searchT (sz nEl : Nat) : List OutTemplate → Nat → Option Nat × Nat
  | [], tid => (none, tid)
  | t :: rest, tid =>
      if t.size = sz ∧ t.exElementList.length = nEl then (some 0, tid)
      else
        match searchT sz nEl rest t.template_id with
        | (none, tid') => (none, tid')
        | (some i, tid') => (some (i + 1), tid')

/-- GetOutputTemplate: return the index of the cached hit, or append a
freshly built template (id = last id + 1, or 256 for the first). -/
def GetOutputTemplate (ts : List OutTemplate) (r : MasterRecord) :
    Nat × List OutTemplate :=
  match searchT r.size r.exElementList.length ts 0 with
  | (some i, _) => (i, ts)
  | (none, tid) => (ts.length, ts ++ [newTemplate r tid])

/-- CloseDataFlowset (lines 624-641): if a data flowset is open, compute
its byte count, patch its 16-bit length field with the count rounded up
to a multiple of 4, and append `length & 0x3` zero bytes (the loop bound
is `align`, the number the C code appends), then clear the open state. -/
def CloseDataFlowset (s : SenderState) : SenderState :=
  match s.dataFlowsetStart with
  | none => s
  | some start =>
      let length0 := s.buffer.length - start
      let align := length0 % 4
      let length := if align ≠ 0 then length0 + (4 - align) else length0
      let buf := if align ≠ 0 then s.buffer ++ List.replicate align 0 else s.buffer
      let buf := (buf.set (start + 2) (length / 256 % 256)).set (start + 3) (length % 256)
      { s with buffer := buf, dataFlowsetStart := none, dataFlowsetId := 0 }

/-- CheckSendBufferSpace (lines 643-663): if `size` more bytes do not
fit, finalize the packet in place (flush flag, sequence, header count in
network byte order, close the open flowset, zero the per-packet
counters) and report false; otherwise leave the state alone. -/
def CheckSendBufferSpace (size : Nat) (s : SenderState) : Bool × SenderState :=
  if s.buffer.length + size > s.capacity then
    let seq := (s.seqCounter + 1) % 2 ^ 32
    let s1 := { s with flush := true, seqCounter := seq,
                       hdrSequence := beBytes 4 seq,
                       hdrCount := beBytes 2 (s.recordCount + s.templateCount) }
    let s2 := CloseDataFlowset s1
    (false, { s2 with recordCount := 0, templateCount := 0 })
  else (true, s)

/-- Close_v9_output (lines 164-181): when the packet holds anything,
finalize it (same steps as the failure branch of CheckSendBufferSpace)
and report 1; an empty packet reports 0 untouched. -/
def Close_v9_output (s : SenderState) : Nat × SenderState :=
  if s.recordCount + s.templateCount > 0 then
    let seq := (s.seqCounter + 1) % 2 ^ 32
    let s1 := { s with flush := true, seqCounter := seq,
                       hdrSequence := beBytes 4 seq,
                       hdrCount := beBytes 2 (s.recordCount + s.templateCount) }
    let s2 := CloseDataFlowset s1
    (1, { s2 with recordCount := 0, templateCount := 0 })
  else (0, s)

/-- Add_template_flowset (lines 614-622): memcpy the pre-built template
flowset into the buffer and count one more template in the packet. -/
def Add_template_flowset (t : OutTemplate) (s : SenderState) : SenderState :=
  { s with buffer := s.buffer ++ templateBytes t,
           templateCount := s.templateCount + 1 }

/-- Append_Record (lines 468-612): write the record's bytes and count
one more record in the packet. -/
def Append_Record (r : MasterRecord) (s : SenderState) : SenderState :=
  { s with buffer := s.buffer ++ recordBytes r,
           recordCount := s.recordCount + 1 }

/-- Tail of Add_v9_output_record from line 712 (the part reached with a
data flowset open for the record's template, index `idx`): capacity
check for the record alone, Append_Record, per-template record counter,
refresh heuristic (record_count & 0xFFF == 0, or now - time_sent > 60;
time_t differences below zero behave like 0 for the > 60 test). -/
def afterOpen (now : Nat) (r : MasterRecord) (idx : Nat) (s : SenderState) :
    Nat × SenderState :=
  let t := s.templates.getD idx dfltTemplate
  let c := CheckSendBufferSpace t.record_length s
  if c.1 = false then (1, c.2)
  else
    let s1 := Append_Record r c.2
    let s2 := { s1 with
      templates := modifyIdx s1.templates idx
        (fun u => { u with record_count := u.record_count + 1 }) }
    let t2 := s2.templates.getD idx dfltTemplate
    let s3 :=
      if t2.record_count % 4096 = 0 ∨ now - t2.time_sent > 60 then
        { s2 with
          templates := modifyIdx s2.templates idx
            (fun u => { u with needs_refresh := true }) }
      else s2
    (0, s3)

/-- Flowset management part of Add_v9_output_record (lines 688-732),
run after the template lookup on the state `s2` whose cache holds the
record's template at index `idx`: were the open flowset's id to differ
from the template's (0 when none is open, never a template id) or the
template to be tagged for refresh, close the open flowset, check
capacity for template flowset + data flowset header + record
(returning 1 on failure), emit the template, stamp its time_sent, and
open a fresh data flowset; then in every case hand over to the
record-appending tail. -/
def openAndAdd (now : Nat) (r : MasterRecord) (idx : Nat) (s2 : SenderState) :
    Nat × SenderState :=
  let t := s2.templates.getD idx dfltTemplate
  if s2.dataFlowsetId ≠ t.template_id ∨ t.needs_refresh then
    let s3 := CloseDataFlowset s2
    let c := CheckSendBufferSpace (t.record_length + 8 + t.flowset_length) s3
    if c.1 = false then (1, c.2)
    else
      let s4 := Add_template_flowset t c.2
      let s5 := { s4 with
        templates := modifyIdx s4.templates idx
          (fun u => { u with time_sent := now }) }
      let s6 := { s5 with
        dataFlowsetStart := some s5.buffer.length,
        buffer := s5.buffer ++ beBytes 2 t.template_id ++ [0, 0],
        dataFlowsetId := t.template_id }
      afterOpen now r idx s6
  else afterOpen now r idx s2

/-- Add_v9_output_record (lines 665-733).  Returns 0 when the record was
consumed (or skipped for having no extensions), 1 when the caller must
flush and retry.  A record with no extensions is a no-op; the first
record ever also stamps the header's unix_secs anchor (flow start minus
one day, a uint64 subtraction whose quotient is stored as uint32); the
buffer-was-flushed cursor fixup is absorbed by flushReset. -/
def Add_v9_output_record (now : Nat) (r : MasterRecord) (s0 : SenderState) :
    Nat × SenderState :=
  if r.exElementList.length = 0 then (0, s0)
  else
    let s1 :=
      if s0.hdrUnixSecs = [0, 0, 0, 0] then
        { s0 with hdrUnixSecs :=
            beBytes 4 ((r.msecFirst % 2 ^ 64 + 2 ^ 64 - 86400000) % 2 ^ 64 / 1000) }
      else s0
    let p := GetOutputTemplate s1.templates r
    openAndAdd now r p.1 { s1 with templates := p.2 }

/-- The session states the engine can actually be in: produced from a
fresh session by Add_v9_output_record, Close_v9_output, and the caller
flushing a drained buffer (the transport contract only lets the caller
reset the cursor between flowsets). -/
inductive Reachable : SenderState → Prop where
  | init (c : Nat) : Reachable (initState c)
  | add (now : Nat) (r : MasterRecord) {s : SenderState} :
      Reachable s → Reachable (Add_v9_output_record now r s).2
  | close {s : SenderState} :
      Reachable s → Reachable (Close_v9_output s).2
  | flushReset {s : SenderState} :
      Reachable s → s.dataFlowsetStart = none → Reachable (flushReset s)

/-- The id sequence 256, 257, ..., 256+n-1 the cache is expected to
carry after n creations. -/
def idsFrom (n : Nat) : List Nat := (List.range n).map (fun i => 256 + i)

/-- Template ids count up from 256 in cache order (meaningful until the
uint16 id field would wrap, i.e. while at most 65280 templates exist). -/
def idsProp (ts : List OutTemplate) : Prop :=
  ts.length ≤ 65280 → ts.map OutTemplate.template_id = idsFrom ts.length

/-- Structural invariant of every reachable state: an open data flowset
lies inside the buffer, holds its 4-byte header plus records of even
length; a closed flowset leaves id 0 behind; and template ids count up
from 256. -/
structure WF (s : SenderState) : Prop where
  open_ok : ∀ st, s.dataFlowsetStart = some st →
    st + 4 ≤ s.buffer.length ∧ (s.buffer.length - st) % 2 = 0
  closed_id : s.dataFlowsetStart = none → s.dataFlowsetId = 0
  ids : idsProp s.templates
  tlen : ∀ t ∈ s.templates, (templateBytes t).length = t.flowset_length

/-- Wire byte width each extension contributes to a data record
(the record_length increments of the template builder). -/
def extWidth : ExId → Nat
  | .EXgenericFlowID => 42
  | .EXipv4FlowID => 8
  | .EXipv6FlowID => 32
  | .EXflowMiscID => 12
  | .EXcntFlowID => 24
  | .EXvLanID => 4
  | .EXasRoutingID => 8
  | .EXbgpNextHopV4ID => 4
  | .EXbgpNextHopV6ID => 16
  | .EXipNextHopV4ID => 4
  | .EXipNextHopV6ID => 16
  | .EXmplsLabelID => 30
  | .EXmacAddrID => 24
  | .EXasAdjacentID => 8

/- Concrete inputs used to exercise the model. -/

/-- A minimal record: one VLAN extension, started one day after epoch+1d
(so the stamped unix_secs anchor is the nonzero value 86400). -/
def rVlan : MasterRecord := { exElementList := [.EXvLanID], msecFirst := 172800000 }

/-- The same shape as rVlan but with a much later start time. -/
def rLate : MasterRecord := { exElementList := [.EXvLanID], msecFirst := 432000000 }

/-- An ICMP record carrying the generic-flow extension; dstPort holds
type/code 8.0 = 2048 as nfdump stores it for ICMP. -/
def rIcmp : MasterRecord :=
  { exElementList := [.EXgenericFlowID], proto := 1, srcPort := 7, dstPort := 2048 }

/-- Two records of equal size whose extension sequences are the two
orders of the same two-element set. -/
def rGenIp : MasterRecord := { size := 100, exElementList := [.EXgenericFlowID, .EXipv4FlowID] }

def rIpGen : MasterRecord := { size := 100, exElementList := [.EXipv4FlowID, .EXgenericFlowID] }

/-- A second permutation pair, on a different extension set. -/
def rVlanAs : MasterRecord := { size := 60, exElementList := [.EXvLanID, .EXasRoutingID] }

def rAsVlan : MasterRecord := { size := 60, exElementList := [.EXasRoutingID, .EXvLanID] }

/-- A session state holding rVlan's template tagged for refresh, as a
run of 4096 rVlan records leaves it (counter at 4096, flag set, no open
flowset, anchor already stamped). -/
def c3template : OutTemplate :=
  { newTemplate rVlan 0 with needs_refresh := true, record_count := 4096 }

def c3state : SenderState :=
  { templates := [c3template], buffer := [], capacity := 10000, flush := false,
    hdrUnixSecs := beBytes 4 86400, hdrCount := [0, 0],
    hdrSequence := [0, 0, 0, 0], seqCounter := 1,
    recordCount := 0, templateCount := 0,
    dataFlowsetStart := none, dataFlowsetId := 0 }

/-- The 4097-record single-template session of claim C8: every call adds
rVlan at time 0 into an ample buffer. -/
def runC8 : Nat → SenderState
  | 0 => initState 1000000000
  | i + 1 => (Add_v9_output_record 0 rVlan (runC8 i)).2

/-- Concatenation of i copies of rVlan's wire record. -/
def c8recs : Nat → List Nat
  | 0 => []
  | i + 1 => c8recs i ++ recordBytes rVlan

/-- Buffer contents after the template flowset, the data-flowset header
and i records of the C8 session. -/
def c8buf (i : Nat) : List Nat :=
  templateBytes (newTemplate rVlan 0) ++ beBytes 2 256 ++ [0, 0] ++ c8recs i

/-- The C8 session state after i successful appends (1 ≤ i):
one cached template with the given refresh flag, the single data
flowset still open at offset 24. -/
def c8steady (i : Nat) (flag : Bool) : SenderState :=
  { templates := [{ newTemplate rVlan 0 with record_count := i, needs_refresh := flag }],
    buffer := c8buf i, capacity := 1000000000, flush := false,
    hdrUnixSecs := beBytes 4 86400, hdrCount := [0, 0],
    hdrSequence := [0, 0, 0, 0], seqCounter := 0,
    recordCount := i, templateCount := 1,
    dataFlowsetStart := some 24, dataFlowsetId := 256 }

/-- A state whose buffer is full up to capacity: two rVlan records in a
40-byte data region (template 24 + flowset header 4 + 2 x 6 record
bytes); the next rVlan record does not fit. -/
def c4state : SenderState :=
  (Add_v9_output_record 0 rVlan (Add_v9_output_record 0 rVlan (initState 40)).2).2

/-- A finalized one-record packet used to witness C10. -/
def c10state : SenderState :=
  { initState 0 with buffer := [5], recordCount := 1 }

/-- The next multiple of 4 at or above n (the claim's aligned length). -/
def alignUp4 (n : Nat) : Nat := if n % 4 = 0 then n else n + (4 - n % 4)

/-- The C8 session state right after the refresh-flagged template is
re-emitted and one more record appended: the old flowset's length field
(bytes 26 and 27, big-endian 4 + 6i) is patched, then the template
flowset, a fresh data-flowset header and the new record follow. -/
def c8after (i : Nat) : SenderState :=
  { templates := [{ newTemplate rVlan 0 with
        time_sent := 0,
        record_count := i + 1,
        needs_refresh := true }],
    buffer := ((c8buf i).set 26 ((4 + 6 * i) / 256 % 256)).set 27
        ((4 + 6 * i) % 256) ++ templateBytes (newTemplate rVlan 0) ++
      beBytes 2 256 ++ [0, 0] ++ recordBytes rVlan,
    capacity := 1000000000, flush := false,
    hdrUnixSecs := beBytes 4 86400, hdrCount := [0, 0],
    hdrSequence := [0, 0, 0, 0], seqCounter := 0,
    recordCount := i + 1, templateCount := 2,
    dataFlowsetStart := some (52 + 6 * i), dataFlowsetId := 256 }

/- Basic length facts about the serializers. -/

theorem beBytes_length (n v : Nat) : (beBytes n v).length = n := by
  induction n generalizing v with
  | zero => rfl
  | succ n ih => simp [beBytes, ih]

theorem extBytes_length (r : MasterRecord) (e : ExId) :
    (extBytes r e).length = extWidth e := by
  cases e <;>
    first
      | (simp [extBytes, extWidth, beBytes_length]; done)
      | (simp [extBytes, extWidth, beBytes_length]
         split <;> simp [beBytes_length])
      | (simp [extBytes, extWidth, List.length_flatMap, Function.comp_def,
           beBytes_length]
         try decide)

theorem buildStep_record_length (acc : BuildAcc) (e : ExId) :
    (buildStep acc e).record_length = acc.record_length + extWidth e := by
  cases e <;> simp [buildStep, extWidth]

theorem foldl_buildStep_record_length (l : List ExId) (acc : BuildAcc) :
    (l.foldl buildStep acc).record_length =
      acc.record_length + (l.map extWidth).sum := by
  induction l generalizing acc with
  | nil => simp
  | cons e l ih =>
      simp [List.foldl_cons, ih, buildStep_record_length, Nat.add_assoc]

theorem recordBytes_length (r : MasterRecord) :
    (recordBytes r).length = 2 + (r.exElementList.map extWidth).sum := by
  simp [recordBytes, List.length_flatMap, beBytes_length, Function.comp_def,
    extBytes_length]
  rw [show (fun x => extWidth x) = extWidth from rfl]
  omega

theorem extWidth_even (e : ExId) : extWidth e % 2 = 0 := by
  cases e <;> decide

theorem sum_extWidth_even (l : List ExId) : (l.map extWidth).sum % 2 = 0 := by
  induction l with
  | nil => decide
  | cons e l ih =>
      have h := extWidth_even e
      simp only [List.map_cons, List.sum_cons]
      omega

theorem recordBytes_length_even (r : MasterRecord) :
    (recordBytes r).length % 2 = 0 := by
  have h := sum_extWidth_even r.exElementList
  rw [recordBytes_length]
  omega

/- CloseDataFlowset touches only the buffer and the open-flowset state. -/

theorem close_templates (s : SenderState) :
    (CloseDataFlowset s).templates = s.templates := by
  unfold CloseDataFlowset; split <;> simp

theorem close_capacity (s : SenderState) :
    (CloseDataFlowset s).capacity = s.capacity := by
  unfold CloseDataFlowset; split <;> simp

theorem close_flush (s : SenderState) :
    (CloseDataFlowset s).flush = s.flush := by
  unfold CloseDataFlowset; split <;> simp

theorem close_hdrUnixSecs (s : SenderState) :
    (CloseDataFlowset s).hdrUnixSecs = s.hdrUnixSecs := by
  unfold CloseDataFlowset; split <;> simp

theorem close_hdrCount (s : SenderState) :
    (CloseDataFlowset s).hdrCount = s.hdrCount := by
  unfold CloseDataFlowset; split <;> simp

theorem close_hdrSequence (s : SenderState) :
    (CloseDataFlowset s).hdrSequence = s.hdrSequence := by
  unfold CloseDataFlowset; split <;> simp

theorem close_seqCounter (s : SenderState) :
    (CloseDataFlowset s).seqCounter = s.seqCounter := by
  unfold CloseDataFlowset; split <;> simp

theorem close_recordCount (s : SenderState) :
    (CloseDataFlowset s).recordCount = s.recordCount := by
  unfold CloseDataFlowset; split <;> simp

theorem close_templateCount (s : SenderState) :
    (CloseDataFlowset s).templateCount = s.templateCount := by
  unfold CloseDataFlowset; split <;> simp

theorem close_start (s : SenderState) :
    (CloseDataFlowset s).dataFlowsetStart = none := by
  unfold CloseDataFlowset; split <;> simp_all

/- Bookkeeping facts about the template cache search. -/

theorem searchT_some_lt (sz nEl : Nat) (ts : List OutTemplate) :
    ∀ tid i tid', searchT sz nEl ts tid = (some i, tid') → i < ts.length := by
  induction ts with
  | nil => intro tid i tid' h; simp [searchT] at h
  | cons t rest ih =>
      intro tid i tid' h
      by_cases hc : t.size = sz ∧ t.exElementList.length = nEl
      · simp only [searchT, if_pos hc, Prod.mk.injEq, Option.some.injEq] at h
        obtain ⟨h1, -⟩ := h
        subst h1
        simp
      · simp only [searchT, if_neg hc] at h
        rcases hq : searchT sz nEl rest t.template_id with ⟨o, tid''⟩
        rw [hq] at h
        cases o with
        | none => simp at h
        | some j =>
            simp at h
            have := ih _ _ _ hq
            simp [List.length_cons]
            omega

theorem searchT_none_last (sz nEl : Nat) (ts : List OutTemplate) :
    ∀ tid tid', searchT sz nEl ts tid = (none, tid') →
      tid' = (ts.getLast?.map OutTemplate.template_id).getD tid := by
  induction ts with
  | nil => intro tid tid' h; simp [searchT] at h; simp [h]
  | cons t rest ih =>
      intro tid tid' h
      by_cases hc : t.size = sz ∧ t.exElementList.length = nEl
      · simp [searchT, hc] at h
      · simp only [searchT, if_neg hc] at h
        rcases hq : searchT sz nEl rest t.template_id with ⟨o, tid''⟩
        rw [hq] at h
        cases o with
        | some j => simp at h
        | none =>
            simp at h
            subst h
            have hrec := ih _ _ hq
            have hcons : (t :: rest).getLast? = rest.getLast?.or (some t) := by
              have : t :: rest = [t] ++ rest := rfl
              rw [this, List.getLast?_append]
              rfl
            rw [hcons]
            cases hl : rest.getLast? with
            | none => simp [hl] at hrec; simp [hrec]
            | some u => simp [hl] at hrec; simp [hrec]

theorem getOutput_idx_lt (ts : List OutTemplate) (r : MasterRecord) :
    (GetOutputTemplate ts r).1 < (GetOutputTemplate ts r).2.length := by
  unfold GetOutputTemplate
  rcases hq : searchT r.size r.exElementList.length ts 0 with ⟨o, tid⟩
  cases o with
  | some i => simpa using searchT_some_lt _ _ ts _ _ _ hq
  | none => simp

theorem newTemplate_id (r : MasterRecord) (tid : Nat) :
    (newTemplate r tid).template_id =
      if tid = 0 then 256 else (tid + 1) % 65536 := rfl

theorem idsFrom_getLast? (n : Nat) (h : 0 < n) :
    (idsFrom n).getLast? = some (256 + (n - 1)) := by
  cases n with
  | zero => omega
  | succ m => simp [idsFrom, List.range_succ, List.getLast?_concat]

theorem idsProp_getOutput (ts : List OutTemplate) (r : MasterRecord)
    (h : idsProp ts) : idsProp (GetOutputTemplate ts r).2 := by
  unfold GetOutputTemplate
  split
  · exact h
  · rename_i tid hq
    intro hlen
    simp only [List.length_append, List.length_cons, List.length_nil] at hlen
    have hts := h (by omega)
    have htid := searchT_none_last _ _ ts 0 tid hq
    cases hl : ts.getLast? with
    | none =>
        have hnil : ts = [] := List.getLast?_eq_none_iff.mp hl
        subst hnil
        simp only [hl, Option.map_none, Option.getD_none] at htid
        subst htid
        simp [idsFrom, List.range_succ, newTemplate_id]
    | some u =>
        have hne : ts ≠ [] := by
          intro hnil; subst hnil; simp at hl
        have hpos : 0 < ts.length := List.length_pos.mpr hne
        have hu : u.template_id = 256 + (ts.length - 1) := by
          have h1 : (ts.map OutTemplate.template_id).getLast? =
              Option.map OutTemplate.template_id ts.getLast? :=
            List.getLast?_map _ _
          rw [hts, hl, idsFrom_getLast? _ hpos] at h1
          simpa using h1.symm
        have htv : tid = u.template_id := by
          rw [htid, hl]
          rfl
        have hid : (newTemplate r tid).template_id = 256 + ts.length := by
          rw [newTemplate_id, htv, hu, if_neg (by omega)]
          have h2 : 256 + (ts.length - 1) + 1 = 256 + ts.length := by omega
          rw [h2, Nat.mod_eq_of_lt (by omega)]
        simp only [List.map_append, List.map_cons, List.map_nil, hts, hid]
        have h3 : idsFrom (ts.length + 1) =
            idsFrom ts.length ++ [256 + ts.length] := by
          simp [idsFrom, List.range_succ]
        simp [h3]

theorem modifyIdx_length (ts : List OutTemplate) (i : Nat)
    (f : OutTemplate → OutTemplate) :
    (modifyIdx ts i f).length = ts.length := by
  simp [modifyIdx]

theorem map_tid_modifyIdx (ts : List OutTemplate) (i : Nat)
    (f : OutTemplate → OutTemplate)
    (hf : ∀ t, (f t).template_id = t.template_id) :
    (modifyIdx ts i f).map OutTemplate.template_id =
      ts.map OutTemplate.template_id := by
  induction ts generalizing i with
  | nil => rfl
  | cons t rest ih =>
      cases i with
      | zero => simp [modifyIdx, List.getD, hf]
      | succ i =>
          have := ih i
          simp only [modifyIdx] at this ⊢
          simpa [List.getD_cons_succ] using this

theorem idsProp_modifyIdx (ts : List OutTemplate) (i : Nat)
    (f : OutTemplate → OutTemplate)
    (hf : ∀ t, (f t).template_id = t.template_id)
    (h : idsProp ts) : idsProp (modifyIdx ts i f) := by
  intro hlen
  rw [modifyIdx_length] at hlen ⊢
  rw [map_tid_modifyIdx ts i f hf]
  exact h hlen

theorem templateBytes_length (t : OutTemplate) :
    (templateBytes t).length = 8 + 4 * t.fields.length := by
  simp [templateBytes, beBytes_length, List.length_flatMap, Function.comp_def]
  omega

theorem templateBytes_length_even (t : OutTemplate) :
    (templateBytes t).length % 2 = 0 := by
  rw [templateBytes_length]
  omega

theorem templateBytes_newTemplate_length (r : MasterRecord) (tid : Nat) :
    (templateBytes (newTemplate r tid)).length =
      (newTemplate r tid).flowset_length := by
  rw [templateBytes_length]
  show 8 + 4 * (buildFields r.exElementList).fields.length = _
  have h0 : (4 * (2 + (buildFields r.exElementList).fields.length)) % 4 = 0 := by
    omega
  simp [newTemplate, h0]
  omega

theorem getD_mem_of_lt (ts : List OutTemplate) (i : Nat) (h : i < ts.length) :
    ts.getD i dfltTemplate ∈ ts := by
  rw [List.getD_eq_getElem?_getD]
  cases hx : ts[i]? with
  | none =>
      rw [List.getElem?_eq_none_iff] at hx
      omega
  | some v =>
      have := List.getElem?_mem hx
      simpa using this

theorem tlen_getOutput (ts : List OutTemplate) (r : MasterRecord)
    (h : ∀ t ∈ ts, (templateBytes t).length = t.flowset_length) :
    ∀ t ∈ (GetOutputTemplate ts r).2,
      (templateBytes t).length = t.flowset_length := by
  unfold GetOutputTemplate
  split
  · exact h
  · intro t ht
    rcases List.mem_append.mp ht with hmem | hmem
    · exact h t hmem
    · simp only [List.mem_singleton] at hmem
      subst hmem
      exact templateBytes_newTemplate_length r _

/- WF preservation through each operation. -/

theorem wf_of_eq (s s' : SenderState) (h : WF s)
    (hb : s'.buffer = s.buffer) (hst : s'.dataFlowsetStart = s.dataFlowsetStart)
    (hid : s'.dataFlowsetId = s.dataFlowsetId)
    (ht : s'.templates = s.templates) : WF s' := by
  refine ⟨?_, ?_, ?_, ?_⟩
  · intro st h'
    rw [hb]
    exact h.open_ok st (hst ▸ h')
  · intro h'
    rw [hid]
    exact h.closed_id (hst ▸ h')
  · rw [ht]
    exact h.ids
  · rw [ht]
    exact h.tlen

theorem wf_init (c : Nat) : WF (initState c) := by
  refine ⟨?_, ?_, ?_, ?_⟩
  · intro st h'; simp [initState] at h'
  · intro _; rfl
  · intro _; rfl
  · intro t ht; simp [initState] at ht

theorem wf_close (s : SenderState) (h : WF s) : WF (CloseDataFlowset s) := by
  unfold CloseDataFlowset
  split
  · exact h
  · refine ⟨?_, ?_, ?_, ?_⟩
    · intro st h'; simp at h'
    · intro _; rfl
    · exact h.ids
    · exact h.tlen

theorem checkSpace_cases (size : Nat) (s : SenderState) :
    (CheckSendBufferSpace size s).1 = false ∨
    (CheckSendBufferSpace size s = (true, s) ∧
      s.buffer.length + size ≤ s.capacity) := by
  unfold CheckSendBufferSpace
  split
  · left; rfl
  · right
    refine ⟨rfl, ?_⟩
    omega

theorem wf_checkSpace (size : Nat) (s : SenderState) (h : WF s) :
    WF (CheckSendBufferSpace size s).2 := by
  unfold CheckSendBufferSpace
  split
  · have h1 : WF { s with
        flush := true,
        seqCounter := (s.seqCounter + 1) % 2 ^ 32,
        hdrSequence := beBytes 4 ((s.seqCounter + 1) % 2 ^ 32),
        hdrCount := beBytes 2 (s.recordCount + s.templateCount) } :=
      wf_of_eq _ _ h rfl rfl rfl rfl
    have h2 := wf_close _ h1
    exact wf_of_eq _ _ h2 rfl rfl rfl rfl
  · exact h

theorem wf_addTemplateFlowset (t : OutTemplate) (s : SenderState) (h : WF s) :
    WF (Add_template_flowset t s) := by
  refine ⟨?_, h.closed_id, h.ids, h.tlen⟩
  intro st hst
  have h2 := h.open_ok st hst
  have h3 := templateBytes_length_even t
  simp only [Add_template_flowset, List.length_append]
  omega

theorem wf_appendRecord (r : MasterRecord) (s : SenderState) (h : WF s) :
    WF (Append_Record r s) := by
  refine ⟨?_, h.closed_id, h.ids, h.tlen⟩
  intro st hst
  have h2 := h.open_ok st hst
  have h3 := recordBytes_length_even r
  simp only [Append_Record, List.length_append]
  omega

theorem wf_modifyTemplates (s : SenderState) (i : Nat)
    (f : OutTemplate → OutTemplate)
    (hf : ∀ t, (f t).template_id = t.template_id)
    (hf2 : ∀ t, (f t).fields = t.fields ∧ (f t).flowset_length = t.flowset_length)
    (h : WF s) :
    WF { s with templates := modifyIdx s.templates i f } := by
  refine ⟨h.open_ok, h.closed_id, idsProp_modifyIdx _ i f hf h.ids, ?_⟩
  intro t' ht'
  by_cases hi : i < s.templates.length
  · rcases List.mem_or_eq_of_mem_set ht' with hmem | heq
    · exact h.tlen t' hmem
    · subst heq
      rw [templateBytes_length, (hf2 _).1, (hf2 _).2, ← templateBytes_length]
      exact h.tlen _ (getD_mem_of_lt _ i hi)
  · rw [modifyIdx, List.set_eq_of_length_le (le_of_not_lt hi)] at ht'
    exact h.tlen _ ht'

theorem wf_afterOpen (now : Nat) (r : MasterRecord) (idx : Nat)
    (s : SenderState) (h : WF s) : WF (afterOpen now r idx s).2 := by
  simp only [afterOpen]
  split
  · exact wf_checkSpace _ _ h
  · rename_i hc
    rcases checkSpace_cases (s.templates.getD idx dfltTemplate).record_length s
      with hfail | ⟨heq, hle⟩
    · exact absurd hfail hc
    · rw [heq]
      have h1 := wf_appendRecord r s h
      have h2 := wf_modifyTemplates (Append_Record r s) idx
        (fun u => { u with record_count := u.record_count + 1 })
        (fun t => rfl) (fun t => ⟨rfl, rfl⟩) h1
      split
      · exact wf_modifyTemplates _ idx
          (fun u => { u with needs_refresh := true }) (fun t => rfl)
          (fun t => ⟨rfl, rfl⟩) h2
      · exact h2

theorem wf_openAndAdd (now : Nat) (r : MasterRecord) (idx : Nat)
    (s : SenderState) (h : WF s) : WF (openAndAdd now r idx s).2 := by
  simp only [openAndAdd]
  split
  · have h3 := wf_close s h
    split
    · exact wf_checkSpace _ _ h3
    · rename_i hc
      rcases checkSpace_cases
        ((s.templates.getD idx dfltTemplate).record_length + 8 +
          (s.templates.getD idx dfltTemplate).flowset_length)
        (CloseDataFlowset s) with hfail | ⟨heq, hle⟩
      · exact absurd hfail hc
      · rw [heq]
        have h4 := wf_addTemplateFlowset (s.templates.getD idx dfltTemplate)
          (CloseDataFlowset s) h3
        have h5 := wf_modifyTemplates
          (Add_template_flowset (s.templates.getD idx dfltTemplate)
            (CloseDataFlowset s)) idx
          (fun u => { u with time_sent := now }) (fun t => rfl)
          (fun t => ⟨rfl, rfl⟩) h4
        apply wf_afterOpen
        refine ⟨?_, ?_, ?_, ?_⟩
        · intro st hst
          simp only [Option.some_inj] at hst
          simp only [List.length_append, beBytes_length, List.length_cons,
            List.length_nil]
          omega
        · intro h'; simp at h'
        · exact h5.ids
        · exact h5.tlen
  · exact wf_afterOpen now r idx s h

theorem wf_add (now : Nat) (r : MasterRecord) (s : SenderState) (h : WF s) :
    WF (Add_v9_output_record now r s).2 := by
  simp only [Add_v9_output_record]
  split
  · exact h
  · apply wf_openAndAdd
    by_cases h0 : s.hdrUnixSecs = [0, 0, 0, 0]
    · rw [if_pos h0]
      exact ⟨h.open_ok, h.closed_id, idsProp_getOutput s.templates r h.ids,
        tlen_getOutput s.templates r h.tlen⟩
    · rw [if_neg h0]
      exact ⟨h.open_ok, h.closed_id, idsProp_getOutput s.templates r h.ids,
        tlen_getOutput s.templates r h.tlen⟩

theorem wf_close_v9 (s : SenderState) (h : WF s) : WF (Close_v9_output s).2 := by
  unfold Close_v9_output
  split
  · have h1 : WF { s with
        flush := true,
        seqCounter := (s.seqCounter + 1) % 2 ^ 32,
        hdrSequence := beBytes 4 ((s.seqCounter + 1) % 2 ^ 32),
        hdrCount := beBytes 2 (s.recordCount + s.templateCount) } :=
      wf_of_eq _ _ h rfl rfl rfl rfl
    have h2 := wf_close _ h1
    exact wf_of_eq _ _ h2 rfl rfl rfl rfl
  · exact h

theorem wf_flushReset (s : SenderState) (h : WF s)
    (hst : s.dataFlowsetStart = none) : WF (flushReset s) := by
  refine ⟨?_, ?_, h.ids, h.tlen⟩
  · intro st h'
    simp [flushReset, hst] at h'
  · intro _
    exact h.closed_id hst

/-- Every reachable session state satisfies the structural invariant. -/
theorem wf_reachable (s : SenderState) (h : Reachable s) : WF s := by
  induction h with
  | init c => exact wf_init c
  | add now r _ ih => exact wf_add now r _ ih
  | close _ ih => exact wf_close_v9 _ ih
  | flushReset _ hst ih => exact wf_flushReset _ ih hst

/- getD / drop over the length-field patch of CloseDataFlowset. -/

theorem getD_set_self (l : List Nat) (i a : Nat) (h : i < l.length) :
    (l.set i a).getD i 0 = a := by
  rw [List.getD_eq_getElem?_getD, List.getElem?_set_self h]
  rfl

theorem getD_set_ne (l : List Nat) (i j a : Nat) (h : i ≠ j) :
    (l.set i a).getD j 0 = l.getD j 0 := by
  rw [List.getD_eq_getElem?_getD, List.getElem?_set_ne h,
    ← List.getD_eq_getElem?_getD]

theorem drop_patch (l : List Nat) (i j a b : Nat) (hi : i < l.length)
    (hj : j < l.length) :
    ((l.set i a).set j b).drop l.length = [] := by
  rw [List.drop_set_of_lt _ _ hj, List.drop_set_of_lt _ _ hi, List.drop_length]

theorem drop_patch_pad (l : List Nat) (i j a b k : Nat) (hi : i < l.length)
    (hj : j < l.length) :
    (((l ++ List.replicate k 0).set i a).set j b).drop l.length =
      List.replicate k 0 := by
  rw [List.drop_set_of_lt _ _ hj, List.drop_set_of_lt _ _ hi, List.drop_left]

theorem getD_append_left (l m : List Nat) (i : Nat) (h : i < l.length) :
    (l ++ m).getD i 0 = l.getD i 0 := by
  rw [List.getD_eq_getElem?_getD, List.getElem?_append, if_pos h,
    ← List.getD_eq_getElem?_getD]

theorem close_of_none (s : SenderState) (h : s.dataFlowsetStart = none) :
    CloseDataFlowset s = s := by
  unfold CloseDataFlowset
  rw [h]

theorem close_id_zero (s : SenderState)
    (h : s.dataFlowsetStart = none → s.dataFlowsetId = 0) :
    (CloseDataFlowset s).dataFlowsetId = 0 := by
  unfold CloseDataFlowset
  split
  · rename_i hst
    exact h hst
  · rfl

theorem close_buffer_congr (s s' : SenderState) (hb : s'.buffer = s.buffer)
    (hst : s'.dataFlowsetStart = s.dataFlowsetStart) :
    (CloseDataFlowset s').buffer = (CloseDataFlowset s).buffer := by
  unfold CloseDataFlowset
  rw [hst]
  cases h : s.dataFlowsetStart with
  | none => simpa using hb
  | some st => simp [hb]

theorem checkSpace_pass_of_le (size : Nat) (s : SenderState)
    (h : s.buffer.length + size ≤ s.capacity) :
    CheckSendBufferSpace size s = (true, s) := by
  unfold CheckSendBufferSpace
  rw [if_neg (by omega)]

theorem checkSpace_fail_gt (size : Nat) (s : SenderState)
    (h : (CheckSendBufferSpace size s).1 = false) :
    s.buffer.length + size > s.capacity := by
  by_contra hc
  rw [checkSpace_pass_of_le size s (by omega)] at h
  simp at h

theorem checkSpace_fail_state (size : Nat) (s : SenderState)
    (hgt : s.buffer.length + size > s.capacity) :
    (CheckSendBufferSpace size s).1 = false ∧
    (CheckSendBufferSpace size s).2.flush = true ∧
    (CheckSendBufferSpace size s).2.buffer = (CloseDataFlowset s).buffer ∧
    (CheckSendBufferSpace size s).2.templates = s.templates ∧
    (CheckSendBufferSpace size s).2.dataFlowsetStart = none ∧
    ((s.dataFlowsetStart = none → s.dataFlowsetId = 0) →
      (CheckSendBufferSpace size s).2.dataFlowsetId = 0) ∧
    (CheckSendBufferSpace size s).2.capacity = s.capacity ∧
    (CheckSendBufferSpace size s).2.hdrUnixSecs = s.hdrUnixSecs := by
  unfold CheckSendBufferSpace
  rw [if_pos hgt]
  refine ⟨rfl, ?_, ?_, ?_, ?_, ?_, ?_, ?_⟩
  · simp [close_flush]
  · simp only []
    exact close_buffer_congr _ _ rfl rfl
  · simp [close_templates]
  · simp [close_start]
  · intro hcl
    simp only []
    exact close_id_zero _ hcl
  · simp [close_capacity]
  · simp [close_hdrUnixSecs]

theorem modifyIdx_getD_self (ts : List OutTemplate) (i : Nat)
    (f : OutTemplate → OutTemplate) (h : i < ts.length) :
    (modifyIdx ts i f).getD i dfltTemplate = f (ts.getD i dfltTemplate) := by
  rw [modifyIdx, List.getD_eq_getElem?_getD, List.getElem?_set_self h]
  rfl

theorem searchT_append_match (sz nEl : Nat) (t : OutTemplate)
    (ht : t.size = sz ∧ t.exElementList.length = nEl) (ts : List OutTemplate) :
    ∀ tid tid', searchT sz nEl ts tid = (none, tid') →
      ∃ tid'', searchT sz nEl (ts ++ [t]) tid = (some ts.length, tid'') := by
  induction ts with
  | nil =>
      intro tid tid' h
      exact ⟨tid, by simp [searchT, ht]⟩
  | cons u rest ih =>
      intro tid tid' h
      by_cases hc : u.size = sz ∧ u.exElementList.length = nEl
      · simp [searchT, hc] at h
      · simp only [searchT, if_neg hc] at h
        rcases hq : searchT sz nEl rest u.template_id with ⟨o, tid2⟩
        rw [hq] at h
        cases o with
        | some j => simp at h
        | none =>
            obtain ⟨tid'', h2⟩ := ih _ _ hq
            refine ⟨tid'', ?_⟩
            rw [List.cons_append]
            simp only [searchT, if_neg hc]
            rw [h2]
            simp

theorem getOutput_retry (ts : List OutTemplate) (r : MasterRecord) :
    GetOutputTemplate (GetOutputTemplate ts r).2 r =
      ((GetOutputTemplate ts r).1, (GetOutputTemplate ts r).2) := by
  unfold GetOutputTemplate
  rcases hq : searchT r.size r.exElementList.length ts 0 with ⟨o, tid⟩
  cases o with
  | some i => simp [hq]
  | none =>
      obtain ⟨tid2, h2⟩ := searchT_append_match r.size r.exElementList.length
        (newTemplate r tid) ⟨rfl, rfl⟩ ts 0 tid hq
      simp [hq, h2]

theorem tid_of_idsProp (ts : List OutTemplate) (idx : Nat) (h : idsProp ts)
    (hlen : ts.length ≤ 65280) (hidx : idx < ts.length) :
    (ts.getD idx dfltTemplate).template_id = 256 + idx := by
  have hm := h hlen
  have e0 : ts[idx]? = some (ts.getD idx dfltTemplate) := by
    cases hx : ts[idx]? with
    | none =>
        rw [List.getElem?_eq_none_iff] at hx
        omega
    | some v =>
        rw [List.getD_eq_getElem?_getD, hx]
        rfl
  have e1 : (ts.map OutTemplate.template_id)[idx]? =
      some (ts.getD idx dfltTemplate).template_id := by
    rw [List.getElem?_map, e0]
    rfl
  have e2 : (idsFrom ts.length)[idx]? = some (256 + idx) := by
    simp [idsFrom, List.getElem?_map, List.getElem?_range hidx]
  rw [hm, e2] at e1
  simpa using e1.symm

/-- Closing the open flowset only patches its two length-field bytes and
appends at most 3 zero bytes; everything else in the buffer stays. -/
theorem close_buffer_facts (s : SenderState) (h : WF s) :
    s.buffer.length ≤ (CloseDataFlowset s).buffer.length ∧
    (CloseDataFlowset s).buffer.length ≤ s.buffer.length + 3 ∧
    (CloseDataFlowset s).buffer.drop s.buffer.length =
      List.replicate ((CloseDataFlowset s).buffer.length - s.buffer.length) 0 ∧
    ∀ i, i < s.buffer.length →
      (∀ st, s.dataFlowsetStart = some st → i ≠ st + 2 ∧ i ≠ st + 3) →
      (CloseDataFlowset s).buffer.getD i 0 = s.buffer.getD i 0 := by
  cases hst : s.dataFlowsetStart with
  | none =>
      rw [close_of_none s hst]
      refine ⟨le_refl _, by omega, by simp [List.drop_length], fun i _ _ => rfl⟩
  | some st =>
      obtain ⟨hle, heven⟩ := h.open_ok st hst
      have hst2 : st + 2 < s.buffer.length := by omega
      have hst3 : st + 3 < s.buffer.length := by omega
      have h4 : (s.buffer.length - st) % 4 = 0 ∨
          (s.buffer.length - st) % 4 = 2 := by omega
      rcases h4 with h4 | h4
      · simp only [CloseDataFlowset, hst, h4, ne_eq, not_true_eq_false,
          if_false, ite_false]
        refine ⟨?_, ?_, ?_, ?_⟩
        · simp [List.length_set]
        · simp [List.length_set]
        · rw [drop_patch _ _ _ _ _ hst2 hst3]
          simp [List.length_set]
        · intro i hi hne2
          obtain ⟨hne2a, hne2b⟩ := hne2 st rfl
          rw [getD_set_ne _ _ _ _ (by omega), getD_set_ne _ _ _ _ (by omega)]
      · have hne : ¬(s.buffer.length - st) % 4 = 0 := by omega
        simp only [CloseDataFlowset, hst, h4, ne_eq, hne, not_false_eq_true,
          if_true, ite_true, if_neg, if_false, ite_false,
          (by decide : ((2 : Nat) = 0) = False)]
        have hlen2 : ∀ a b : Nat,
            (((s.buffer ++ List.replicate 2 0).set (st + 2) a).set (st + 3)
              b).length = s.buffer.length + 2 := by
          intro a b
          simp [List.length_set, List.length_append]
        refine ⟨?_, ?_, ?_, ?_⟩
        · rw [hlen2]
          omega
        · rw [hlen2]
          omega
        · rw [hlen2, drop_patch_pad _ _ _ _ _ _ hst2 hst3]
          congr 1
          omega
        · intro i hi hne2
          obtain ⟨hne2a, hne2b⟩ := hne2 st rfl
          rw [getD_set_ne _ _ _ _ (by omega), getD_set_ne _ _ _ _ (by omega),
            getD_append_left _ _ _ hi]

/-- When the record fits, the tail of Add_v9_output_record consumes it:
result 0 and exactly the record's bytes appended. -/
theorem afterOpen_pass (now : Nat) (r : MasterRecord) (idx : Nat)
    (s : SenderState)
    (hle : s.buffer.length +
      (s.templates.getD idx dfltTemplate).record_length ≤ s.capacity) :
    (afterOpen now r idx s).1 = 0 ∧
    (afterOpen now r idx s).2.buffer = s.buffer ++ recordBytes r := by
  simp only [afterOpen]
  rw [checkSpace_pass_of_le _ _ hle]
  constructor
  · split
    · rename_i hh
      simp at hh
    · split <;> rfl
  · split
    · rename_i hfalse
      simp at hfalse
    · split <;> simp [Append_Record]

/-- When the record does not fit, the tail finalizes the packet in place
and reports 1; the buffer only sees the flowset close. -/
theorem afterOpen_fail (now : Nat) (r : MasterRecord) (idx : Nat)
    (s : SenderState) (h : WF s)
    (hfail : (afterOpen now r idx s).1 = 1) :
    (afterOpen now r idx s).2.flush = true ∧
    (afterOpen now r idx s).2.buffer = (CloseDataFlowset s).buffer ∧
    (afterOpen now r idx s).2.templates = s.templates ∧
    (afterOpen now r idx s).2.dataFlowsetStart = none ∧
    (afterOpen now r idx s).2.dataFlowsetId = 0 ∧
    (afterOpen now r idx s).2.capacity = s.capacity := by
  simp only [afterOpen] at hfail ⊢
  by_cases hc1 : (CheckSendBufferSpace
      (s.templates.getD idx dfltTemplate).record_length s).1 = false
  · rw [if_pos hc1] at hfail ⊢
    have hgt := checkSpace_fail_gt _ _ hc1
    obtain ⟨-, hf, hb, ht, hs, hi, hc, -⟩ := checkSpace_fail_state _ s hgt
    exact ⟨hf, hb, ht, hs, hi h.closed_id, hc⟩
  · rw [if_neg hc1] at hfail
    rcases checkSpace_cases
        (s.templates.getD idx dfltTemplate).record_length s with hx | ⟨hx, -⟩
    · exact absurd hx hc1
    · rw [hx] at hfail
      simp at hfail

/-- When Add_v9_output_record's flowset-management part reports 1, the
packet was finalized in place: flush raised, the buffer only saw the
flowset close, the cache untouched, the flowset state cleared. -/
theorem openAndAdd_fail (now : Nat) (r : MasterRecord) (idx : Nat)
    (s : SenderState) (h : WF s) (hidx : idx < s.templates.length)
    (hfail : (openAndAdd now r idx s).1 = 1) :
    (openAndAdd now r idx s).2.flush = true ∧
    (openAndAdd now r idx s).2.buffer = (CloseDataFlowset s).buffer ∧
    (openAndAdd now r idx s).2.templates = s.templates ∧
    (openAndAdd now r idx s).2.dataFlowsetStart = none ∧
    (openAndAdd now r idx s).2.dataFlowsetId = 0 ∧
    (openAndAdd now r idx s).2.capacity = s.capacity := by
  simp only [openAndAdd] at hfail ⊢
  by_cases hcond : s.dataFlowsetId ≠
      (s.templates.getD idx dfltTemplate).template_id ∨
      (s.templates.getD idx dfltTemplate).needs_refresh = true
  · rw [if_pos hcond] at hfail ⊢
    by_cases hc1 : (CheckSendBufferSpace
        ((s.templates.getD idx dfltTemplate).record_length + 8 +
          (s.templates.getD idx dfltTemplate).flowset_length)
        (CloseDataFlowset s)).1 = false
    · rw [if_pos hc1] at hfail ⊢
      have hgt := checkSpace_fail_gt _ _ hc1
      obtain ⟨-, hf, hb, ht, hs, hi, hc, -⟩ := checkSpace_fail_state _ _ hgt
      refine ⟨hf, ?_, ?_, hs, ?_, ?_⟩
      · rw [hb, close_of_none _ (close_start s)]
      · rw [ht, close_templates]
      · exact hi (fun _ => close_id_zero s h.closed_id)
      · rw [hc, close_capacity]
    · rw [if_neg hc1] at hfail
      exfalso
      rcases checkSpace_cases
          ((s.templates.getD idx dfltTemplate).record_length + 8 +
            (s.templates.getD idx dfltTemplate).flowset_length)
          (CloseDataFlowset s) with hx | hx2
      · exact hc1 hx
      obtain ⟨hx, hle⟩ := hx2
      rw [hx] at hfail
      rw [close_capacity] at hle
      have htl := h.tlen _ (getD_mem_of_lt _ idx hidx)
      have key := afterOpen_pass now r idx
        (let t := s.templates.getD idx dfltTemplate
         let s4 := Add_template_flowset t (CloseDataFlowset s)
         let s5 := { s4 with
            templates := modifyIdx s4.templates idx
              (fun u => { u with time_sent := now }) }
         { s5 with
            dataFlowsetStart := some s5.buffer.length,
            buffer := s5.buffer ++ beBytes 2 t.template_id ++ [0, 0],
            dataFlowsetId := t.template_id })
        (by
          simp only [Add_template_flowset, close_templates,
            List.length_append, beBytes_length, List.length_cons,
            List.length_nil,
            modifyIdx_getD_self s.templates idx
              (fun u => { u with time_sent := now }) hidx]
          simp only [close_capacity]
          omega)
      have h0 := key.1
      rw [hfail] at h0
      simp at h0
  · rw [if_neg hcond] at hfail ⊢
    exact afterOpen_fail now r idx s h hfail

/-- From an empty, flowset-free buffer, a record whose template flowset,
data-flowset header and record all fit succeeds: the template bytes, the
data-flowset header and the record bytes are emitted in that order. -/
theorem openAndAdd_fresh_success (now : Nat) (r : MasterRecord) (idx : Nat)
    (s : SenderState) (hbuf : s.buffer = [])
    (hstart : s.dataFlowsetStart = none) (hid : s.dataFlowsetId = 0)
    (hidx : idx < s.templates.length)
    (htid : (s.templates.getD idx dfltTemplate).template_id ≠ 0)
    (hflen : (templateBytes (s.templates.getD idx dfltTemplate)).length =
      (s.templates.getD idx dfltTemplate).flowset_length)
    (hcap : (s.templates.getD idx dfltTemplate).record_length + 8 +
      (s.templates.getD idx dfltTemplate).flowset_length ≤ s.capacity) :
    (openAndAdd now r idx s).1 = 0 ∧
    (openAndAdd now r idx s).2.buffer =
      templateBytes (s.templates.getD idx dfltTemplate) ++
        beBytes 2 (s.templates.getD idx dfltTemplate).template_id ++
        [0, 0] ++ recordBytes r := by
  simp only [openAndAdd]
  rw [if_pos (Or.inl (fun hh => htid (hh.symm.trans hid)))]
  rw [close_of_none s hstart]
  rw [checkSpace_pass_of_le _ _ (by
    rw [hbuf]
    simp only [List.length_nil]
    omega)]
  rw [if_neg (by simp : ¬(((true, s) : Bool × SenderState).1 = false))]
  have key := afterOpen_pass now r idx
    (let t := s.templates.getD idx dfltTemplate
     let s4 := Add_template_flowset t s
     let s5 := { s4 with
        templates := modifyIdx s4.templates idx
          (fun u => { u with time_sent := now }) }
     { s5 with
        dataFlowsetStart := some s5.buffer.length,
        buffer := s5.buffer ++ beBytes 2 t.template_id ++ [0, 0],
        dataFlowsetId := t.template_id })
    (by
      simp only [Add_template_flowset, hbuf, List.length_append,
        beBytes_length, List.length_cons, List.length_nil,
        modifyIdx_getD_self s.templates idx
          (fun u => { u with time_sent := now }) hidx]
      omega)
  refine ⟨key.1, key.2.trans ?_⟩
  simp [Add_template_flowset, hbuf, List.append_assoc]

theorem getOutput_length_le (ts : List OutTemplate) (r : MasterRecord) :
    (GetOutputTemplate ts r).2.length ≤ ts.length + 1 := by
  unfold GetOutputTemplate
  split <;> simp

/-- A record added to a drained buffer with no open flowset, whose
template is already cached at idx0 and fits, is consumed whole. -/
theorem add_fresh_success (now : Nat) (r : MasterRecord) (idx0 : Nat)
    (sf : SenderState) (hne : ¬r.exElementList.length = 0)
    (hbuf : sf.buffer = []) (hstart : sf.dataFlowsetStart = none)
    (hid : sf.dataFlowsetId = 0)
    (hretry : GetOutputTemplate sf.templates r = (idx0, sf.templates))
    (hidx : idx0 < sf.templates.length)
    (htid : (sf.templates.getD idx0 dfltTemplate).template_id ≠ 0)
    (hflen : (templateBytes (sf.templates.getD idx0 dfltTemplate)).length =
      (sf.templates.getD idx0 dfltTemplate).flowset_length)
    (hcap : (sf.templates.getD idx0 dfltTemplate).record_length + 8 +
      (sf.templates.getD idx0 dfltTemplate).flowset_length ≤ sf.capacity) :
    (Add_v9_output_record now r sf).1 = 0 ∧
    (Add_v9_output_record now r sf).2.buffer =
      templateBytes (sf.templates.getD idx0 dfltTemplate) ++
        beBytes 2 (sf.templates.getD idx0 dfltTemplate).template_id ++
        [0, 0] ++ recordBytes r := by
  simp only [Add_v9_output_record, if_neg hne,
    apply_ite SenderState.templates, apply_ite SenderState.buffer,
    apply_ite SenderState.capacity, apply_ite SenderState.dataFlowsetStart,
    apply_ite SenderState.dataFlowsetId, ite_self]
  rw [hretry]
  exact openAndAdd_fresh_success now r idx0 _ hbuf hstart hid hidx htid
    hflen hcap

/-- Claim C4: whenever Add_v9_output_record signals flush-required (1),
no partial record and no partial template reached the buffer: beyond the
length-field patch of the flowset being closed, the existing bytes are
untouched and only the (at most 3) zero padding bytes of that close are
appended; and re-invoking with the same record on the flushed buffer
succeeds, emitting template flowset, data-flowset header and record.
The capacity hypothesis says one template + header + record fit an
empty buffer (otherwise no flush can help), and the cache is assumed
below the id wrap-around. -/
theorem C4_flush_required_no_partial_writes (now : Nat) (r : MasterRecord)
    (s : SenderState) (hR : Reachable s)
    (hfail : (Add_v9_output_record now r s).1 = 1)
    (hn : s.templates.length < 65000)
    (hcap : ((GetOutputTemplate s.templates r).2.getD
        (GetOutputTemplate s.templates r).1 dfltTemplate).record_length + 8 +
      ((GetOutputTemplate s.templates r).2.getD
        (GetOutputTemplate s.templates r).1 dfltTemplate).flowset_length ≤
      s.capacity) :
    (Add_v9_output_record now r s).2.flush = true ∧
    s.buffer.length ≤ (Add_v9_output_record now r s).2.buffer.length ∧
    (Add_v9_output_record now r s).2.buffer.length ≤ s.buffer.length + 3 ∧
    (Add_v9_output_record now r s).2.buffer.drop s.buffer.length =
      List.replicate
        ((Add_v9_output_record now r s).2.buffer.length - s.buffer.length) 0 ∧
    (∀ i, i < s.buffer.length →
      (∀ st, s.dataFlowsetStart = some st → i ≠ st + 2 ∧ i ≠ st + 3) →
      (Add_v9_output_record now r s).2.buffer.getD i 0 = s.buffer.getD i 0) ∧
    (Add_v9_output_record now r
      (flushReset (Add_v9_output_record now r s).2)).1 = 0 ∧
    (Add_v9_output_record now r
      (flushReset (Add_v9_output_record now r s).2)).2.buffer =
      templateBytes ((GetOutputTemplate s.templates r).2.getD
        (GetOutputTemplate s.templates r).1 dfltTemplate) ++
        beBytes 2 ((GetOutputTemplate s.templates r).2.getD
          (GetOutputTemplate s.templates r).1 dfltTemplate).template_id ++
        [0, 0] ++ recordBytes r := by
  have hwf := wf_reachable s hR
  have hne : ¬r.exElementList.length = 0 := by
    intro hz
    simp only [Add_v9_output_record, if_pos hz] at hfail
    omega
  simp only [Add_v9_output_record, if_neg hne,
    apply_ite SenderState.templates, apply_ite SenderState.buffer,
    apply_ite SenderState.capacity, apply_ite SenderState.dataFlowsetStart,
    apply_ite SenderState.dataFlowsetId, ite_self] at hfail
  obtain ⟨hf1, hf2, hf3, hf4, hf5, hf6⟩ :=
    openAndAdd_fail now r _ _
      (by exact ⟨hwf.open_ok, hwf.closed_id,
        idsProp_getOutput s.templates r hwf.ids,
        tlen_getOutput s.templates r hwf.tlen⟩)
      (by exact getOutput_idx_lt s.templates r) hfail
  have gf1 : (Add_v9_output_record now r s).2.flush = true := by
    simp only [Add_v9_output_record, if_neg hne,
      apply_ite SenderState.templates, apply_ite SenderState.buffer,
      apply_ite SenderState.capacity, apply_ite SenderState.dataFlowsetStart,
      apply_ite SenderState.dataFlowsetId, ite_self]
    exact hf1
  have gbuf : (Add_v9_output_record now r s).2.buffer =
      (CloseDataFlowset s).buffer := by
    simp only [Add_v9_output_record, if_neg hne,
      apply_ite SenderState.templates, apply_ite SenderState.buffer,
      apply_ite SenderState.capacity, apply_ite SenderState.dataFlowsetStart,
      apply_ite SenderState.dataFlowsetId, ite_self]
    exact hf2.trans (close_buffer_congr _ _ rfl rfl)
  have gtempl : (Add_v9_output_record now r s).2.templates =
      (GetOutputTemplate s.templates r).2 := by
    simp only [Add_v9_output_record, if_neg hne,
      apply_ite SenderState.templates, apply_ite SenderState.buffer,
      apply_ite SenderState.capacity, apply_ite SenderState.dataFlowsetStart,
      apply_ite SenderState.dataFlowsetId, ite_self]
    exact hf3
  have gstart : (Add_v9_output_record now r s).2.dataFlowsetStart = none := by
    simp only [Add_v9_output_record, if_neg hne,
      apply_ite SenderState.templates, apply_ite SenderState.buffer,
      apply_ite SenderState.capacity, apply_ite SenderState.dataFlowsetStart,
      apply_ite SenderState.dataFlowsetId, ite_self]
    exact hf4
  have gid : (Add_v9_output_record now r s).2.dataFlowsetId = 0 := by
    simp only [Add_v9_output_record, if_neg hne,
      apply_ite SenderState.templates, apply_ite SenderState.buffer,
      apply_ite SenderState.capacity, apply_ite SenderState.dataFlowsetStart,
      apply_ite SenderState.dataFlowsetId, ite_self]
    exact hf5
  have gcap : (Add_v9_output_record now r s).2.capacity = s.capacity := by
    simp only [Add_v9_output_record, if_neg hne,
      apply_ite SenderState.templates, apply_ite SenderState.buffer,
      apply_ite SenderState.capacity, apply_ite SenderState.dataFlowsetStart,
      apply_ite SenderState.dataFlowsetId, ite_self]
    exact hf6
  obtain ⟨hcb1, hcb2, hcb3, hcb4⟩ := close_buffer_facts s hwf
  have hidx0 := getOutput_idx_lt s.templates r
  have hlen1 : (GetOutputTemplate s.templates r).2.length ≤ 65280 := by
    have := getOutput_length_le s.templates r
    omega
  have htid0 : ((GetOutputTemplate s.templates r).2.getD
      (GetOutputTemplate s.templates r).1 dfltTemplate).template_id ≠ 0 := by
    rw [tid_of_idsProp _ _ (idsProp_getOutput s.templates r hwf.ids) hlen1
      hidx0]
    omega
  have hAFS := add_fresh_success now r (GetOutputTemplate s.templates r).1
    (flushReset (Add_v9_output_record now r s).2) hne rfl gstart gid
    (by
      show GetOutputTemplate (Add_v9_output_record now r s).2.templates r =
        ((GetOutputTemplate s.templates r).1,
          (Add_v9_output_record now r s).2.templates)
      rw [gtempl]
      exact getOutput_retry s.templates r)
    (by
      show (GetOutputTemplate s.templates r).1 <
        (Add_v9_output_record now r s).2.templates.length
      rw [gtempl]
      exact hidx0)
    (by
      show ((Add_v9_output_record now r s).2.templates.getD
        (GetOutputTemplate s.templates r).1 dfltTemplate).template_id ≠ 0
      rw [gtempl]
      exact htid0)
    (by
      show (templateBytes ((Add_v9_output_record now r s).2.templates.getD
          (GetOutputTemplate s.templates r).1 dfltTemplate)).length =
        ((Add_v9_output_record now r s).2.templates.getD
          (GetOutputTemplate s.templates r).1 dfltTemplate).flowset_length
      rw [gtempl]
      exact tlen_getOutput s.templates r hwf.tlen _
        (getD_mem_of_lt _ _ hidx0))
    (by
      show ((Add_v9_output_record now r s).2.templates.getD
          (GetOutputTemplate s.templates r).1 dfltTemplate).record_length +
          8 +
        ((Add_v9_output_record now r s).2.templates.getD
          (GetOutputTemplate s.templates r).1 dfltTemplate).flowset_length ≤
        (Add_v9_output_record now r s).2.capacity
      rw [gtempl, gcap]
      exact hcap)
  refine ⟨gf1, ?_, ?_, ?_, ?_, hAFS.1, ?_⟩
  · rw [gbuf]; exact hcb1
  · rw [gbuf]; exact hcb2
  · rw [gbuf]; exact hcb3
  · intro i hi hnotlen
    rw [gbuf]
    exact hcb4 i hi hnotlen
  · refine hAFS.2.trans ?_
    have e1 : (flushReset (Add_v9_output_record now r s).2).templates =
        (GetOutputTemplate s.templates r).2 := gtempl
    rw [e1]

theorem C4_flush_required_no_partial_writes_witness :
    ((Add_v9_output_record 0 rVlan c4state).1 = 1 ∧
      c4state.templates.length < 65000 ∧
      ((GetOutputTemplate c4state.templates rVlan).2.getD
          (GetOutputTemplate c4state.templates rVlan).1
          dfltTemplate).record_length + 8 +
        ((GetOutputTemplate c4state.templates rVlan).2.getD
          (GetOutputTemplate c4state.templates rVlan).1
          dfltTemplate).flowset_length ≤ c4state.capacity) ∧
    (Add_v9_output_record 0 rVlan c4state).2.flush = true ∧
    (Add_v9_output_record 0 rVlan
      (flushReset (Add_v9_output_record 0 rVlan c4state).2)).1 = 0 ∧
    (Add_v9_output_record 0 rVlan
      (flushReset (Add_v9_output_record 0 rVlan c4state).2)).2.buffer =
      templateBytes ((GetOutputTemplate c4state.templates rVlan).2.getD
        (GetOutputTemplate c4state.templates rVlan).1 dfltTemplate) ++
        beBytes 2 ((GetOutputTemplate c4state.templates rVlan).2.getD
          (GetOutputTemplate c4state.templates rVlan).1
          dfltTemplate).template_id ++
        [0, 0] ++ recordBytes rVlan :=
  ⟨⟨by decide, by decide, by decide⟩,
    (C4_flush_required_no_partial_writes 0 rVlan c4state
      (Reachable.add 0 rVlan (Reachable.add 0 rVlan (Reachable.init 40)))
      (by decide) (by decide) (by decide)).1,
    (C4_flush_required_no_partial_writes 0 rVlan c4state
      (Reachable.add 0 rVlan (Reachable.add 0 rVlan (Reachable.init 40)))
      (by decide) (by decide) (by decide)).2.2.2.2.2.1,
    (C4_flush_required_no_partial_writes 0 rVlan c4state
      (Reachable.add 0 rVlan (Reachable.add 0 rVlan (Reachable.init 40)))
      (by decide) (by decide) (by decide)).2.2.2.2.2.2⟩

/-- Claim C2: for every reachable state with an open data flowset (whose
byte count fits the 16-bit length field), CloseDataFlowset patches the
length field with the byte count rounded up to a multiple of 4, appends
exactly (4 - count % 4) % 4 zero bytes of padding, and leaves the cursor
so that cursor - flowset start equals the patched length field's value
(read back big-endian from the buffer). -/
theorem C2_close_flowset_alignment (s : SenderState) (st : Nat)
    (hR : Reachable s) (hopen : s.dataFlowsetStart = some st)
    (hbound : s.buffer.length - st ≤ 65532) :
    alignUp4 (s.buffer.length - st) % 4 = 0 ∧
    (CloseDataFlowset s).buffer.drop s.buffer.length =
      List.replicate ((4 - (s.buffer.length - st) % 4) % 4) 0 ∧
    (CloseDataFlowset s).buffer.length - st = alignUp4 (s.buffer.length - st) ∧
    256 * (CloseDataFlowset s).buffer.getD (st + 2) 0 +
      (CloseDataFlowset s).buffer.getD (st + 3) 0 =
      alignUp4 (s.buffer.length - st) := by
  have hwf := wf_reachable s hR
  obtain ⟨hle, heven⟩ := hwf.open_ok st hopen
  have hst2 : st + 2 < s.buffer.length := by omega
  have hst3 : st + 3 < s.buffer.length := by omega
  have h4 : (s.buffer.length - st) % 4 = 0 ∨ (s.buffer.length - st) % 4 = 2 := by
    omega
  rcases h4 with h4 | h4
  · simp only [CloseDataFlowset, hopen, h4, alignUp4, ne_eq,
      not_true_eq_false, if_false, ite_false, if_pos]
    refine ⟨trivial, ?_, ?_, ?_⟩
    · rw [drop_patch _ _ _ _ _ hst2 hst3]
      rfl
    · simp [List.length_set]
    · rw [getD_set_ne _ _ _ _ (by omega),
        getD_set_self _ _ _ hst2,
        getD_set_self _ _ _ (by simpa using hst3)]
      omega
  · have hne : ¬(s.buffer.length - st) % 4 = 0 := by omega
    simp only [CloseDataFlowset, hopen, h4, alignUp4, ne_eq, hne,
      not_false_eq_true, if_true, ite_true, if_neg, if_false, ite_false,
      (by decide : ((2 : Nat) = 0) = False)]
    have hst2p : st + 2 < (s.buffer ++ List.replicate 2 0).length := by
      simp [List.length_append]
      omega
    have hst3p : st + 3 < (s.buffer ++ List.replicate 2 0).length := by
      simp [List.length_append]
      omega
    refine ⟨by omega, ?_, ?_, ?_⟩
    · rw [drop_patch_pad _ _ _ _ _ _ hst2 hst3]
    · simp [List.length_set, List.length_append]
      omega
    · rw [getD_set_ne _ _ _ _ (by omega),
        getD_set_self _ _ _ hst2p,
        getD_set_self _ _ _ (by simpa using hst3p)]
      omega

theorem C2_close_flowset_alignment_witness :
    ((Add_v9_output_record 0 rVlan (initState 1000)).2.dataFlowsetStart =
        some 24 ∧
      (Add_v9_output_record 0 rVlan (initState 1000)).2.buffer.length - 24 ≤
        65532) ∧
    (alignUp4
        ((Add_v9_output_record 0 rVlan (initState 1000)).2.buffer.length - 24) %
        4 = 0 ∧
      (CloseDataFlowset
            (Add_v9_output_record 0 rVlan (initState 1000)).2).buffer.drop
          (Add_v9_output_record 0 rVlan (initState 1000)).2.buffer.length =
        List.replicate
          ((4 -
              ((Add_v9_output_record 0 rVlan (initState 1000)).2.buffer.length -
                  24) %
                4) %
            4)
          0 ∧
      (CloseDataFlowset
            (Add_v9_output_record 0 rVlan (initState 1000)).2).buffer.length -
          24 =
        alignUp4
          ((Add_v9_output_record 0 rVlan (initState 1000)).2.buffer.length -
            24) ∧
      256 *
          (CloseDataFlowset
              (Add_v9_output_record 0 rVlan (initState 1000)).2).buffer.getD
            (24 + 2) 0 +
          (CloseDataFlowset
              (Add_v9_output_record 0 rVlan (initState 1000)).2).buffer.getD
            (24 + 3) 0 =
        alignUp4
          ((Add_v9_output_record 0 rVlan (initState 1000)).2.buffer.length -
            24)) :=
  ⟨⟨by decide, by decide⟩,
    C2_close_flowset_alignment _ 24
      (Reachable.add 0 rVlan (Reachable.init 1000)) (by decide) (by decide)⟩

/- The C8 scenario: 4097 consecutive rVlan records at time 0. -/

theorem c8recs_length (i : Nat) : (c8recs i).length = 6 * i := by
  induction i with
  | zero => rfl
  | succ n ih =>
      have h6 : (recordBytes rVlan).length = 6 := by decide
      simp [c8recs, List.length_append, ih, h6]
      omega

theorem c8buf_length (i : Nat) : (c8buf i).length = 28 + 6 * i := by
  have h24 : (templateBytes (newTemplate rVlan 0)).length = 24 := by decide
  simp [c8buf, List.length_append, c8recs_length, beBytes_length, h24]
  omega

theorem c8buf_succ (i : Nat) :
    c8buf i ++ recordBytes rVlan = c8buf (i + 1) := by
  simp [c8buf, c8recs, List.append_assoc]

theorem c8_step (i : Nat) (h1 : 1 ≤ i) (h2 : i ≤ 4094) :
    Add_v9_output_record 0 rVlan (c8steady i false) =
      (0, c8steady (i + 1) false) := by
  show afterOpen 0 rVlan 0 (c8steady i false) = (0, c8steady (i + 1) false)
  have hle : (c8steady i false).buffer.length +
      ((c8steady i false).templates.getD 0 dfltTemplate).record_length ≤
      (c8steady i false).capacity := by
    have hrl : ((c8steady i false).templates.getD 0
        dfltTemplate).record_length = 6 := rfl
    rw [hrl]
    show (c8buf i).length + 6 ≤ 1000000000
    rw [c8buf_length]
    omega
  simp only [afterOpen]
  rw [checkSpace_pass_of_le _ _ hle]
  rw [if_neg (by simp :
    ¬((true, c8steady i false) : Bool × SenderState).1 = false)]
  split
  · rename_i hr
    exfalso
    rcases hr with hr | hr
    · simp only [Append_Record, c8steady, modifyIdx, List.getD_cons_zero,
        List.set_cons_zero] at hr
      omega
    · omega
  · simp only [Append_Record, c8steady, modifyIdx, List.getD_cons_zero,
      List.set_cons_zero]
    simp [c8buf_succ]

theorem c8_step_mark (i : Nat) (hmod : (i + 1) % 4096 = 0)
    (hcap : i ≤ 100000) :
    Add_v9_output_record 0 rVlan (c8steady i false) =
      (0, c8steady (i + 1) true) := by
  show afterOpen 0 rVlan 0 (c8steady i false) = (0, c8steady (i + 1) true)
  have hle : (c8steady i false).buffer.length +
      ((c8steady i false).templates.getD 0 dfltTemplate).record_length ≤
      (c8steady i false).capacity := by
    have hrl : ((c8steady i false).templates.getD 0
        dfltTemplate).record_length = 6 := rfl
    rw [hrl]
    show (c8buf i).length + 6 ≤ 1000000000
    rw [c8buf_length]
    omega
  simp only [afterOpen]
  rw [checkSpace_pass_of_le _ _ hle]
  rw [if_neg (by simp :
    ¬((true, c8steady i false) : Bool × SenderState).1 = false)]
  split
  · simp only [Append_Record, c8steady, modifyIdx, List.getD_cons_zero,
      List.set_cons_zero]
    simp [c8buf_succ]
  · rename_i hnr
    exfalso
    apply hnr
    left
    simp only [Append_Record, c8steady, modifyIdx, List.getD_cons_zero,
      List.set_cons_zero]
    exact hmod

theorem afterOpen_pass_eq (now : Nat) (r : MasterRecord) (idx : Nat)
    (s : SenderState)
    (hle : s.buffer.length +
      (s.templates.getD idx dfltTemplate).record_length ≤ s.capacity)
    (hidx : idx < s.templates.length)
    (hmod : ¬((((s.templates.getD idx dfltTemplate).record_count + 1) %
        4096 = 0) ∨
      now - (s.templates.getD idx dfltTemplate).time_sent > 60)) :
    afterOpen now r idx s =
      (0, { s with
            buffer := s.buffer ++ recordBytes r,
            recordCount := s.recordCount + 1,
            templates := modifyIdx s.templates idx
              (fun u => { u with record_count := u.record_count + 1 }) }) := by
  simp only [afterOpen]
  rw [checkSpace_pass_of_le _ _ hle]
  rw [if_neg (by simp : ¬(((true, s) : Bool × SenderState)).1 = false)]
  rw [modifyIdx_getD_self _ _ _
    (show idx < (Append_Record r
      ((true, s) : Bool × SenderState).2).templates.length from hidx)]
  split
  · rename_i hr
    exfalso
    apply hmod
    simpa [Append_Record] using hr
  · rfl

set_option maxHeartbeats 1000000 in
theorem c8_step_reemit (i : Nat) (hmod : (i + 1) % 4096 ≠ 0)
    (hcap : i ≤ 100000) (hali : (4 + 6 * i) % 4 = 0) :
    Add_v9_output_record 0 rVlan (c8steady i true) = (0, c8after i) := by
  have harith : 28 + 6 * i - 24 = 4 + 6 * i := by omega
  have hrlT : (newTemplate rVlan 0).record_length = 6 := rfl
  have htid : (newTemplate rVlan 0).template_id = 256 := rfl
  have htB : templateBytes { newTemplate rVlan 0 with
      record_count := i,
      needs_refresh := true } =
      templateBytes (newTemplate rVlan 0) := rfl
  have h24 : (templateBytes (newTemplate rVlan 0)).length = 24 := by decide
  have hclose : CloseDataFlowset (c8steady i true) =
      { c8steady i true with
        buffer := ((c8buf i).set 26 ((4 + 6 * i) / 256 % 256)).set 27
          ((4 + 6 * i) % 256),
        dataFlowsetStart := none, dataFlowsetId := 0 } := by
    simp only [CloseDataFlowset, c8steady]
    rw [c8buf_length, harith]
    simp only [if_neg (show ¬((4 + 6 * i) % 4 ≠ 0) by omega)]
  simp only [Add_v9_output_record]
  rw [if_neg (by decide : ¬rVlan.exElementList.length = 0)]
  have hU : ¬(c8steady i true).hdrUnixSecs = [0, 0, 0, 0] := by
    show ¬beBytes 4 86400 = [0, 0, 0, 0]
    decide
  rw [if_neg hU]
  rw [show (GetOutputTemplate (c8steady i true).templates rVlan).1 = 0
    from rfl]
  rw [show (GetOutputTemplate (c8steady i true).templates rVlan).2 =
    (c8steady i true).templates from rfl]
  rw [show ({ c8steady i true with
    templates := (c8steady i true).templates } : SenderState) =
    c8steady i true from rfl]
  simp only [openAndAdd]
  split
  · rw [hclose]
    have hQlen : (((c8buf i).set 26 ((4 + 6 * i) / 256 % 256)).set 27
        ((4 + 6 * i) % 256)).length = 28 + 6 * i := by
      simp [List.length_set, c8buf_length]
    have hpass : CheckSendBufferSpace
        (((c8steady i true).templates.getD 0 dfltTemplate).record_length +
          8 + ((c8steady i true).templates.getD 0
            dfltTemplate).flowset_length)
        ({ c8steady i true with
          buffer := ((c8buf i).set 26 ((4 + 6 * i) / 256 % 256)).set 27
            ((4 + 6 * i) % 256),
          dataFlowsetStart := none, dataFlowsetId := 0 }) =
        (true, { c8steady i true with
          buffer := ((c8buf i).set 26 ((4 + 6 * i) / 256 % 256)).set 27
            ((4 + 6 * i) % 256),
          dataFlowsetStart := none, dataFlowsetId := 0 }) := by
      apply checkSpace_pass_of_le
      show (((c8buf i).set 26 ((4 + 6 * i) / 256 % 256)).set 27
        ((4 + 6 * i) % 256)).length + (6 + 8 + 24) ≤ 1000000000
      rw [hQlen]
      omega
    rw [hpass]
    split
    · rename_i hx
      simp at hx
    · refine (afterOpen_pass_eq 0 rVlan 0 _ ?_ ?_ ?_).trans ?_
      · simp only [Add_template_flowset, c8steady, modifyIdx,
          List.getD_cons_zero, List.set_cons_zero, List.length_append,
          List.length_set, beBytes_length, hrlT, h24, templateBytes_length,
          c8buf_length, List.length_cons, List.length_nil]
        have hfc : (newTemplate rVlan 0).fields.length = 4 := rfl
        simp only [hfc]
        omega
      · simp [Add_template_flowset, c8steady, modifyIdx]
      · rintro (h | h)
        · apply hmod
          simpa [Add_template_flowset, c8steady, modifyIdx,
            List.getD_cons_zero, List.set_cons_zero] using h
        · omega
      · simp only [c8after, Add_template_flowset, c8steady, modifyIdx,
          List.getD_cons_zero, List.set_cons_zero, htB, htid,
          List.length_append, List.length_set, beBytes_length, h24,
          List.append_assoc, templateBytes_length, c8buf_length]
        have hfc : (newTemplate rVlan 0).fields.length = 4 := rfl
        simp only [hfc]
        refine congrArg (Prod.mk 0) ?_
        congr 1
        simp only [Option.some.injEq]
        omega
  · rename_i hcond
    exact absurd (Or.inr rfl) hcond

theorem afterOpen_pass_mark_eq (now : Nat) (r : MasterRecord) (idx : Nat)
    (s : SenderState)
    (hle : s.buffer.length +
      (s.templates.getD idx dfltTemplate).record_length ≤ s.capacity)
    (hidx : idx < s.templates.length)
    (hmodT : (((s.templates.getD idx dfltTemplate).record_count + 1) %
        4096 = 0) ∨
      now - (s.templates.getD idx dfltTemplate).time_sent > 60) :
    afterOpen now r idx s =
      (0, { s with
            buffer := s.buffer ++ recordBytes r,
            recordCount := s.recordCount + 1,
            templates := modifyIdx
              (modifyIdx s.templates idx
                (fun u => { u with record_count := u.record_count + 1 }))
              idx (fun u => { u with needs_refresh := true }) }) := by
  simp only [afterOpen]
  rw [checkSpace_pass_of_le _ _ hle]
  rw [if_neg (by simp : ¬(((true, s) : Bool × SenderState)).1 = false)]
  rw [modifyIdx_getD_self _ _ _
    (show idx < (Append_Record r
      ((true, s) : Bool × SenderState).2).templates.length from hidx)]
  split
  · rfl
  · rename_i hr
    exfalso
    apply hr
    simpa [Append_Record] using hmodT

theorem c8_run_one : runC8 1 = c8steady 1 false := by decide

theorem c8_run (i : Nat) : 1 ≤ i → i ≤ 4095 →
    runC8 i = c8steady i false := by
  induction i with
  | zero => intro h _; omega
  | succ n ih =>
      intro h1 h2
      by_cases hn : n = 0
      · subst hn
        exact c8_run_one
      · show (Add_v9_output_record 0 rVlan (runC8 n)).2 =
          c8steady (n + 1) false
        rw [ih (by omega) (by omega), c8_step n (by omega) (by omega)]

theorem c8_run_step (n : Nat) : runC8 (n + 1) =
    (Add_v9_output_record 0 rVlan (runC8 n)).2 := rfl

theorem c8_run_4096 : runC8 4096 = c8steady 4096 true := by
  rw [show (4096 : Nat) = 4095 + 1 from rfl, c8_run_step 4095,
    c8_run 4095 (by norm_num) (by norm_num),
    c8_step_mark 4095 (by norm_num) (by norm_num)]

theorem c8_run_4097 : runC8 4097 = c8after 4096 := by
  rw [show (4097 : Nat) = 4096 + 1 from rfl, c8_run_step 4096, c8_run_4096,
    c8_step_reemit 4096 (by norm_num) (by norm_num) (by norm_num)]

/-- Claim C8: after the record is appended, its template is marked
needs_refresh exactly when the per-template record counter has just
reached a multiple of 4096 or more than 60 seconds passed since the
template was last emitted; and in a session of 4097 consecutive
records of one template, the flag turns from false to true exactly
once — at record 4096 — and the template bytes are re-emitted into the
buffer (followed by a fresh data-flowset header) before record 4097's
data. -/
theorem C8_refresh_heuristic :
    (∀ (now : Nat) (r : MasterRecord) (idx : Nat) (s : SenderState),
      idx < s.templates.length →
      (s.templates.getD idx dfltTemplate).needs_refresh = false →
      s.buffer.length +
        (s.templates.getD idx dfltTemplate).record_length ≤ s.capacity →
      ((((afterOpen now r idx s).2.templates.getD idx
          dfltTemplate).needs_refresh = true) ↔
        ((((s.templates.getD idx dfltTemplate).record_count + 1) %
            4096 = 0) ∨
          now - (s.templates.getD idx dfltTemplate).time_sent > 60))) ∧
    (∀ i, i ≤ 4097 →
      (((runC8 i).templates.getD 0 dfltTemplate).needs_refresh = true ↔
        4096 ≤ i)) ∧
    (runC8 4096).templateCount = 1 ∧
    (runC8 4097).templateCount = 2 ∧
    (runC8 4097).recordCount = 4097 ∧
    (runC8 4097).buffer.drop (runC8 4096).buffer.length =
      templateBytes (newTemplate rVlan 0) ++ beBytes 2 256 ++ [0, 0] ++
        recordBytes rVlan := by
  refine ⟨?_, ?_, ?_, ?_, ?_, ?_⟩
  · intro now r idx s hidx hflag hle
    by_cases hc : (((s.templates.getD idx dfltTemplate).record_count + 1) %
        4096 = 0) ∨
        now - (s.templates.getD idx dfltTemplate).time_sent > 60
    · rw [afterOpen_pass_mark_eq now r idx s hle hidx hc]
      have hidx2 : idx < (modifyIdx s.templates idx
          (fun u => { u with record_count := u.record_count + 1 })).length := by
        rw [modifyIdx, List.length_set]
        exact hidx
      show ((modifyIdx (modifyIdx s.templates idx
          (fun u => { u with record_count := u.record_count + 1 }))
          idx (fun u => { u with needs_refresh := true })).getD idx
          dfltTemplate).needs_refresh = true ↔ _
      rw [modifyIdx_getD_self _ _ _ hidx2]
      exact iff_of_true rfl hc
    · rw [afterOpen_pass_eq now r idx s hle hidx hc]
      show ((modifyIdx s.templates idx
          (fun u => { u with record_count := u.record_count + 1 })).getD idx
          dfltTemplate).needs_refresh = true ↔ _
      rw [modifyIdx_getD_self _ _ _ hidx]
      refine iff_of_false ?_ hc
      show ¬(s.templates.getD idx dfltTemplate).needs_refresh = true
      rw [hflag]
      simp
  · intro i hi
    rcases Nat.lt_or_ge i 4096 with hlt | hge
    · refine iff_of_false ?_ (by omega)
      rcases Nat.eq_zero_or_pos i with h0 | hpos
      · subst h0
        decide
      · rw [c8_run i hpos (by omega)]
        simp [c8steady, List.getD_cons_zero]
    · have : i = 4096 ∨ i = 4097 := by omega
      rcases this with rfl | rfl
      · rw [c8_run_4096]
        refine iff_of_true ?_ (by omega)
        simp [c8steady, List.getD_cons_zero]
      · rw [c8_run_4097]
        refine iff_of_true ?_ (by omega)
        simp [c8after, List.getD_cons_zero]
  · rw [c8_run_4096]
    rfl
  · rw [c8_run_4097]
    rfl
  · rw [c8_run_4097]
    rfl
  · rw [c8_run_4097, c8_run_4096]
    show (c8after 4096).buffer.drop (c8buf 4096).length = _
    simp only [c8after]
    rw [show (c8buf 4096).length =
      (((c8buf 4096).set 26 ((4 + 6 * 4096) / 256 % 256)).set 27
        ((4 + 6 * 4096) % 256)).length by simp [List.length_set]]
    simp only [List.append_assoc]
    rw [List.drop_left]

/-- Witness for C8: the refresh-heuristic equivalence applied at the
one-record session state, where all three hypotheses are concrete. -/
theorem C8_refresh_heuristic_witness :
    (0 < (c8steady 1 false).templates.length ∧
      ((c8steady 1 false).templates.getD 0 dfltTemplate).needs_refresh =
        false ∧
      (c8steady 1 false).buffer.length +
        ((c8steady 1 false).templates.getD 0 dfltTemplate).record_length ≤
        (c8steady 1 false).capacity) ∧
    ((((afterOpen 0 rVlan 0 (c8steady 1 false)).2.templates.getD 0
        dfltTemplate).needs_refresh = true) ↔
      (((((c8steady 1 false).templates.getD 0
          dfltTemplate).record_count + 1) % 4096 = 0) ∨
        0 - ((c8steady 1 false).templates.getD 0
          dfltTemplate).time_sent > 60)) :=
  ⟨⟨by decide, by decide, by decide⟩,
    C8_refresh_heuristic.1 0 rVlan 0 (c8steady 1 false)
      (by decide) (by decide) (by decide)⟩

/-- Claim C9: for every flow record, whatever its combination and order
of extension ids, Append_Record advances the cursor by exactly the
recordLength the template builder computes for that record (2 engine
bytes plus the sum of the per-extension field widths). -/
theorem C9_record_bytes_match_template_record_length
    (r : MasterRecord) (tid : Nat) :
    (recordBytes r).length = (newTemplate r tid).record_length := by
  simp [newTemplate, buildFields, recordBytes_length,
    foldl_buildStep_record_length]

/-- Claim C5, counterexample: for the ICMP record rIcmp (proto 1,
srcPort 7, type/code 2048 in dstPort) the claim predicts zeroes in the
source-port wire position (record offsets 34-35) and the ICMP value in
the destination-port position (offsets 36-37); the serializer instead
leaves srcPort in its own position and zeroes the destination-port
position. -/
theorem C5_counterexample :
    ¬((recordBytes rIcmp).getD 34 0 = 0 ∧ (recordBytes rIcmp).getD 35 0 = 0 ∧
      (recordBytes rIcmp).getD 36 0 = 8 ∧ (recordBytes rIcmp).getD 37 0 = 0) := by
  decide

/-- Claim C5 as amended: inside the generic-flow extension block (whose
port fields sit at offsets 32-37: source port, destination port, ICMP),
an ICMP/ICMPv6 record keeps its source port in the source-port
position, zeroes the destination-port position, and places the ICMP
type/code value (held in dstPort) in the dedicated ICMP field; any
other protocol writes both ports in their own positions and zeroes the
ICMP field. -/
theorem C5_icmp_port_positions (r : MasterRecord) :
    ((r.proto = IPPROTO_ICMP ∨ r.proto = IPPROTO_ICMPV6) →
      ((extBytes r .EXgenericFlowID).drop 32).take 6 =
        beBytes 2 r.srcPort ++ [0, 0] ++ beBytes 2 r.dstPort) ∧
    (¬(r.proto = IPPROTO_ICMP ∨ r.proto = IPPROTO_ICMPV6) →
      ((extBytes r .EXgenericFlowID).drop 32).take 6 =
        beBytes 2 r.srcPort ++ beBytes 2 r.dstPort ++ [0, 0]) := by
  constructor <;> intro h <;> simp [extBytes, h, beBytes]

theorem C5_icmp_port_positions_witness :
    (rIcmp.proto = IPPROTO_ICMP ∨ rIcmp.proto = IPPROTO_ICMPV6) ∧
    ((extBytes rIcmp .EXgenericFlowID).drop 32).take 6 =
      beBytes 2 rIcmp.srcPort ++ [0, 0] ++ beBytes 2 rIcmp.dstPort :=
  ⟨by decide, (C5_icmp_port_positions rIcmp).1 (by decide)⟩

/-- Claim C1, divergence of the code: rGenIp and rIpGen declare the same
size and the same two extensions in opposite orders, yet the second
lookup returns the first record's cached descriptor (same index, id 256,
cache unchanged) because the size-and-count match returns before the
extension-sequence memcmp is consulted. -/
theorem C1_lookup_ignores_extension_order :
    rGenIp.exElementList ≠ rIpGen.exElementList ∧
    (GetOutputTemplate [] rGenIp).2.length = 1 ∧
    ((GetOutputTemplate [] rGenIp).2.getD 0 dfltTemplate).template_id = 256 ∧
    (GetOutputTemplate (GetOutputTemplate [] rGenIp).2 rIpGen).2 =
      (GetOutputTemplate [] rGenIp).2 ∧
    (GetOutputTemplate (GetOutputTemplate [] rGenIp).2 rIpGen).1 = 0 := by
  decide

/-- Claim C7, divergence of the code: after caching rVlanAs's template
(id 256), presenting the new signature rAsVlan (same size, same count,
different sequence) creates no template and assigns no fresh id - the
cache still holds exactly one descriptor with id 256, so ids are not
assigned once per new signature. -/
theorem C7_second_signature_gets_no_id :
    rVlanAs.exElementList ≠ rAsVlan.exElementList ∧
    (GetOutputTemplate (GetOutputTemplate [] rVlanAs).2 rAsVlan).2.length = 1 ∧
    (GetOutputTemplate (GetOutputTemplate [] rVlanAs).2 rAsVlan).2.map
      OutTemplate.template_id = [256] := by
  decide

/-- Claim C3, divergence of the code: starting from c3state (whose only
template is tagged needs_refresh), adding one rVlan record emits the
template (template counter 1) and stamps time_sent = 7, but the
needs_refresh flag survives the emission, so the very next record of
the same template within the refresh window re-emits the template
(template counter 2) instead of extending the open flowset. -/
theorem C3_needs_refresh_survives_emission :
    (Add_v9_output_record 7 rVlan c3state).2.templateCount = 1 ∧
    ((Add_v9_output_record 7 rVlan c3state).2.templates.getD 0
      dfltTemplate).time_sent = 7 ∧
    ((Add_v9_output_record 7 rVlan c3state).2.templates.getD 0
      dfltTemplate).needs_refresh = true ∧
    (Add_v9_output_record 7 rVlan
      (Add_v9_output_record 7 rVlan c3state).2).2.templateCount = 2 := by
  decide

/-- Claim C6, counterexample: the anchor stamped by the first packet's
first record (unix_secs 86400 from rVlan) survives Close_v9_output, so
the next packet's first record (rLate, which would stamp 345600) does
not set the anchor anew - the header still carries the old value. -/
theorem C6_counterexample :
    (Add_v9_output_record 0 rLate
        (Close_v9_output
          (Add_v9_output_record 0 rVlan (initState 1000)).2).2).2.hdrUnixSecs =
      beBytes 4 86400 ∧
    beBytes 4 86400 ≠ beBytes 4 345600 := by
  decide

/-- Claim C10: when the capacity check fails it finalizes the packet in
place exactly as Close_v9_output does on a non-empty packet: flush flag
raised, sequence incremented and stored big-endian (network order) in
the header, the header count set to records + templates, the open data
flowset closed, and both per-packet counters reset. -/
theorem C10_check_fail_finalizes_like_close (size : Nat) (s : SenderState)
    (hfail : s.buffer.length + size > s.capacity)
    (hcnt : s.recordCount + s.templateCount > 0) :
    (CheckSendBufferSpace size s).1 = false ∧
    (CheckSendBufferSpace size s).2 = (Close_v9_output s).2 ∧
    (Close_v9_output s).1 = 1 ∧
    (CheckSendBufferSpace size s).2.flush = true ∧
    (CheckSendBufferSpace size s).2.seqCounter = (s.seqCounter + 1) % 2 ^ 32 ∧
    (CheckSendBufferSpace size s).2.hdrSequence =
      beBytes 4 ((s.seqCounter + 1) % 2 ^ 32) ∧
    (CheckSendBufferSpace size s).2.hdrCount =
      beBytes 2 (s.recordCount + s.templateCount) ∧
    (CheckSendBufferSpace size s).2.dataFlowsetStart = none ∧
    (CheckSendBufferSpace size s).2.recordCount = 0 ∧
    (CheckSendBufferSpace size s).2.templateCount = 0 := by
  unfold CheckSendBufferSpace Close_v9_output
  rw [if_pos hfail, if_pos hcnt]
  refine ⟨rfl, rfl, rfl, ?_, ?_, ?_, ?_, ?_, rfl, rfl⟩ <;>
    simp [close_flush, close_seqCounter, close_hdrSequence, close_hdrCount,
      close_start]

/- The unix_secs anchor is only ever written by the first-record branch
of Add_v9_output_record. -/

theorem checkSpace_hdrUnixSecs (size : Nat) (s : SenderState) :
    (CheckSendBufferSpace size s).2.hdrUnixSecs = s.hdrUnixSecs := by
  unfold CheckSendBufferSpace
  split <;> simp [close_hdrUnixSecs]

theorem afterOpen_hdrUnixSecs (now : Nat) (r : MasterRecord) (idx : Nat)
    (s : SenderState) :
    (afterOpen now r idx s).2.hdrUnixSecs = s.hdrUnixSecs := by
  simp only [afterOpen]
  split
  · simp [checkSpace_hdrUnixSecs]
  · split <;> simp [Append_Record, checkSpace_hdrUnixSecs]

theorem openAndAdd_hdrUnixSecs (now : Nat) (r : MasterRecord) (idx : Nat)
    (s : SenderState) :
    (openAndAdd now r idx s).2.hdrUnixSecs = s.hdrUnixSecs := by
  simp only [openAndAdd]
  split
  · split
    · simp [checkSpace_hdrUnixSecs, close_hdrUnixSecs]
    · simp [afterOpen_hdrUnixSecs, Add_template_flowset,
        checkSpace_hdrUnixSecs, close_hdrUnixSecs]
  · simp [afterOpen_hdrUnixSecs]

theorem add_hdrUnixSecs (now : Nat) (r : MasterRecord) (s : SenderState) :
    (Add_v9_output_record now r s).2.hdrUnixSecs =
      if r.exElementList.length = 0 then s.hdrUnixSecs
      else if s.hdrUnixSecs = [0, 0, 0, 0] then
        beBytes 4 ((r.msecFirst % 2 ^ 64 + 2 ^ 64 - 86400000) % 2 ^ 64 / 1000)
      else s.hdrUnixSecs := by
  simp only [Add_v9_output_record]
  split
  · simp_all
  · by_cases h0 : s.hdrUnixSecs = [0, 0, 0, 0]
    · rw [if_pos h0]
      simp [openAndAdd_hdrUnixSecs, h0]
    · rw [if_neg h0]
      simp [openAndAdd_hdrUnixSecs, h0]

theorem close_v9_hdrUnixSecs (s : SenderState) :
    (Close_v9_output s).2.hdrUnixSecs = s.hdrUnixSecs := by
  unfold Close_v9_output
  split <;> simp [close_hdrUnixSecs]

/-- Claim C6 as amended: the unix-seconds anchor is written only when
the stored anchor is zero, i.e. once per session at the first record
(from its start timestamp minus 86400 seconds); Close_v9_output never
clears it, so later packets inherit the first packet's anchor instead
of being stamped anew. -/
theorem C6_anchor_set_once_per_session (now : Nat) (r : MasterRecord)
    (s : SenderState) :
    (s.hdrUnixSecs ≠ [0, 0, 0, 0] →
      (Add_v9_output_record now r s).2.hdrUnixSecs = s.hdrUnixSecs) ∧
    (Close_v9_output s).2.hdrUnixSecs = s.hdrUnixSecs ∧
    (s.hdrUnixSecs = [0, 0, 0, 0] → r.exElementList ≠ [] →
      (Add_v9_output_record now r s).2.hdrUnixSecs =
        beBytes 4 ((r.msecFirst % 2 ^ 64 + 2 ^ 64 - 86400000) % 2 ^ 64 / 1000)) := by
  refine ⟨fun h => ?_, close_v9_hdrUnixSecs s, fun h0 hne => ?_⟩
  · rw [add_hdrUnixSecs]
    split <;> simp [h]
  · have hlen : ¬r.exElementList.length = 0 := by simpa using hne
    rw [add_hdrUnixSecs, if_neg hlen, if_pos h0]

theorem C6_anchor_set_once_per_session_witness :
    ((initState 5).hdrUnixSecs = [0, 0, 0, 0] ∧ rVlan.exElementList ≠ []) ∧
    (Add_v9_output_record 0 rVlan (initState 5)).2.hdrUnixSecs =
      beBytes 4 ((rVlan.msecFirst % 2 ^ 64 + 2 ^ 64 - 86400000) % 2 ^ 64 / 1000) :=
  ⟨⟨by decide, by decide⟩,
    (C6_anchor_set_once_per_session 0 rVlan (initState 5)).2.2 (by decide) (by decide)⟩

theorem C10_check_fail_finalizes_like_close_witness :
    (c10state.buffer.length + 4 > c10state.capacity ∧
      c10state.recordCount + c10state.templateCount > 0) ∧
    ((CheckSendBufferSpace 4 c10state).1 = false ∧
      (CheckSendBufferSpace 4 c10state).2 = (Close_v9_output c10state).2 ∧
      (Close_v9_output c10state).1 = 1 ∧
      (CheckSendBufferSpace 4 c10state).2.flush = true ∧
      (CheckSendBufferSpace 4 c10state).2.seqCounter =
        (c10state.seqCounter + 1) % 2 ^ 32 ∧
      (CheckSendBufferSpace 4 c10state).2.hdrSequence =
        beBytes 4 ((c10state.seqCounter + 1) % 2 ^ 32) ∧
      (CheckSendBufferSpace 4 c10state).2.hdrCount =
        beBytes 2 (c10state.recordCount + c10state.templateCount) ∧
      (CheckSendBufferSpace 4 c10state).2.dataFlowsetStart = none ∧
      (CheckSendBufferSpace 4 c10state).2.recordCount = 0 ∧
      (CheckSendBufferSpace 4 c10state).2.templateCount = 0) :=
  ⟨by decide, C10_check_fail_finalizes_like_close 4 c10state (by decide) (by decide)⟩

end SendV9
